import Mathlib

/-!
Shallow embedding of the OptiX utility layer's host-side bookkeeping
(`optix_util.cpp` / `optix_util_private.h`): the `SizeAlign` record packer,
the scene-graph data model, the shader-binding-table layout engine and the
acceleration-structure build/compact/update state machine, together with
theorems checking the natural-language specification against this embedding.

Modelling conventions:
* machine integers (`uint32_t`, `size_t`) are modelled as `Nat`; the record
  sizes and counts handled by this layer are tiny (user data is capped at 512
  bytes, alignments at 16), so 32-bit wraparound is unreachable on the
  quantities the theorems speak about and is not modelled;
* C++ exceptions thrown by `throwRuntimeError` become `Except String`
  results; operations that may throw after mutating part of the object
  return the (possibly partially mutated) state *together with* the result,
  mirroring the fact that a thrown C++ exception leaves the object in its
  partially updated state;
* pointer identity of scene-graph nodes becomes positional identity
  (indices into the owning lists); the `std::unordered_set` of GASs is
  modelled by the list of its elements in iteration order, which in C++ is
  fixed as long as the container is not modified;
* GPU entry points (`optixAccelBuild`, handle conversion, memory-usage
  queries, compacted-size readback) are external collaborators: their outputs
  (handles, memory requirements, compacted sizes) are taken as parameters of
  the corresponding operations.
-/

namespace OptixUtil

/-- `OPTIX_SBT_RECORD_HEADER_SIZE` from the OptiX SDK headers (external to
this repository): 32 bytes. -/
def OPTIX_SBT_RECORD_HEADER_SIZE : Nat := 32

/-- `OPTIX_SBT_RECORD_ALIGNMENT` from the OptiX SDK headers (external to
this repository): 16 bytes. -/
def OPTIX_SBT_RECORD_ALIGNMENT : Nat := 16

/-- Round `s` up to the next multiple of `a`.  The source computes this as
`(s + mask) & ~mask` with `mask = a - 1` on `uint32_t`; for a power-of-two
`a` (the documented `SizeAlign` invariant: "alignment is a power of two")
and in the absence of 32-bit wraparound this mask arithmetic equals
`(s + a - 1) / a * a`. -/
def roundUp (s a : Nat) : Nat := (s + a - 1) / a * a

/-- `optixu::SizeAlign` (`optix_util_private.h`): a size/alignment
accumulator. -/
structure SizeAlign where
  size : Nat
  alignment : Nat
deriving DecidableEq

/-- Default constructor `SizeAlign()`: size 0, alignment 1. -/
def SizeAlign.init : SizeAlign := ⟨0, 1⟩

/-- `SizeAlign::add(sa, offset)`: take the maximum alignment, advance `size`
to the next multiple of the added item's alignment, report that as the
item's offset, then append the item's size.  Returns the new accumulator and
the reported offset. -/
def SizeAlign.add (self sa : SizeAlign) : SizeAlign × Nat :=
  let alignment := Nat.max self.alignment sa.alignment
  let aligned := roundUp self.size sa.alignment
  (⟨aligned + sa.size, alignment⟩, aligned)

/-- `SizeAlign::operator+=`: `add` with the offset output discarded. -/
def SizeAlign.append (self sa : SizeAlign) : SizeAlign :=
  (self.add sa).1

/-- `SizeAlign::alignUp()`: round the accumulated size up to the accumulated
alignment. -/
def SizeAlign.alignUp (self : SizeAlign) : SizeAlign :=
  ⟨roundUp self.size self.alignment, self.alignment⟩

/-- Free function `max(SizeAlign, SizeAlign)`: componentwise maximum. -/
def SizeAlign.max (sa0 sa1 : SizeAlign) : SizeAlign :=
  ⟨Nat.max sa0.size sa1.size, Nat.max sa0.alignment sa1.alignment⟩

/-- Append a whole list of items with `add`, collecting the offset reported
for each item (in order). -/
def SizeAlign.addList (init : SizeAlign) : List SizeAlign → SizeAlign × List Nat
  | [] => (init, [])
  | sa :: rest =>
    let (self, offset) := init.add sa
    let (final, offsets) := self.addList rest
    (final, offset :: offsets)

/-- Maximum alignment among a list of items (1 when the list is empty,
matching the default accumulator's starting alignment). -/
def maxAlignment (items : List SizeAlign) : Nat :=
  items.foldr (fun sa a => Nat.max sa.alignment a) 1

/-- `optixu::Material::Priv`, restricted to the data the scene-graph layer
reads from it: the user-data `SizeAlign`.  The `(pipeline, rayType) →
hit-group` program map feeds only the opaque per-record header bytes, which
the layout claims never inspect. -/
structure Material where
  userDataSizeAlign : SizeAlign
deriving DecidableEq

/-- `Material::Priv::getUserDataSizeAlign()`. -/
def Material.getUserDataSizeAlign (m : Material) : SizeAlign :=
  m.userDataSizeAlign

/-- `cudau::BufferView`: a non-owning view of a device buffer.  `isValid()`
is true when the device pointer is nonzero. -/
structure BufferView where
  ptr : Nat
  numElements : Nat
  stride : Nat
deriving DecidableEq

instance : Inhabited BufferView := ⟨⟨0, 0, 0⟩⟩

/-- `BufferView::isValid()`. -/
def BufferView.isValid (b : BufferView) : Bool := b.ptr ≠ 0

/-- `BufferView::sizeInBytes()`. -/
def BufferView.sizeInBytes (b : BufferView) : Nat := b.numElements * b.stride

/-- `std::vector::resize(n, v)`: truncate to `n` elements or pad with `v`. -/
def listResize (l : List α) (n : Nat) (v : α) : List α :=
  l.take n ++ List.replicate (n - l.length) v

/-- `optixu::GeometryInstance::Priv`, restricted to the data read by the
build-input and SBT-record computations.  `materials` is the 2-D array
`materials[materialSlot][materialSetIndex]` of (weak) material references
(`none` = null pointer); `buildInputFlags` has one entry per SBT record of
this geometry.  `indexFormatIsNone` stands for
`indexFormat == OPTIX_INDICES_FORMAT_NONE`. -/
structure GeometryInstance where
  forCustomPrimitives : Bool
  numMotionSteps : Nat
  vertexBuffers : List BufferView
  primitiveAabbBuffers : List BufferView
  indexFormatIsNone : Bool
  triangleBuffer : BufferView
  buildInputFlags : List Nat
  materials : List (List (Option Material))
  userDataSizeAlign : SizeAlign
deriving DecidableEq

/-- `GeometryInstance::Priv::getNumSBTRecords()`:
`buildInputFlags.size()`. -/
def GeometryInstance.getNumSBTRecords (gi : GeometryInstance) : Nat :=
  gi.buildInputFlags.length

/-- One iteration of the loop in
`GeometryInstance::Priv::calcMaxRecordSizeAlign`: resolve the slot's
material for the requested GAS material set (falling back to the default
set 0 when the set index is out of range for this slot or the entry is
null), and build `header ⊕ material user data`.  Errors when the mandatory
default material (set 0) is absent. -/
def slotRecordSizeAlign (gasMatSetIdx : Nat) (slots : List (Option Material)) :
    Except String SizeAlign :=
  match slots.getD 0 none with
  | none => .error "Default material (== material set 0) is not set for the slot."
  | some defaultMat =>
    let matSetIdx := if gasMatSetIdx < slots.length then gasMatSetIdx else 0
    let mat := match slots.getD matSetIdx none with
      | some m => m
      | none => defaultMat
    .ok ((SizeAlign.mk OPTIX_SBT_RECORD_HEADER_SIZE OPTIX_SBT_RECORD_ALIGNMENT).append
          mat.getUserDataSizeAlign)

/-- `GeometryInstance::Priv::calcMaxRecordSizeAlign(gasMatSetIdx)`: maximum
record `SizeAlign` over this geometry's material slots, plus the geometry
instance's own user data. -/
def GeometryInstance.calcMaxRecordSizeAlign (gi : GeometryInstance) (gasMatSetIdx : Nat) :
    Except String SizeAlign :=
  (gi.materials.foldlM
      (fun acc slots => (slotRecordSizeAlign gasMatSetIdx slots).map acc.max)
      SizeAlign.init).map
    (fun sa => sa.append gi.userDataSizeAlign)

/-- `GeometryInstance::Priv::fillSBTRecords`, abstracted to the number of
records written: the source writes `numRayTypes` records per material slot
(header, material user data, geometry user data, GAS user data) and returns
`numMaterials * numRayTypes`; the per-record byte image is not needed by any
claim, but the default-material validation, which aborts the fill, is kept.
The hit-group lookup in `Material::Priv::setRecordData` depends only on the
external `Pipeline` and is assumed to succeed. -/
def GeometryInstance.fillSBTRecords (gi : GeometryInstance) (numRayTypes : Nat) :
    Except String Nat :=
  gi.materials.foldlM
    (fun n slots =>
      match slots.getD 0 none with
      | none => .error "Default material (== material set 0) is not set for the slot."
      | some _ => .ok (n + numRayTypes))
    0

/-- A `GeometryAccelerationStructure::Priv::Child`: a geometry instance
together with its optional pre-transform device pointer. -/
structure GChild where
  geomInst : GeometryInstance
  preTransform : Nat
deriving DecidableEq

/-- `OptixBuildInput`, abstracted: the claims under verification depend only
on which entries of the transient build-input vector have been written, so a
filled entry records the geometry snapshot and pre-transform it was computed
from rather than the individual descriptor fields. -/
inductive BuildInput where
  | empty : BuildInput
  | filled (geomInst : GeometryInstance) (preTransform : Nat) : BuildInput
deriving DecidableEq

/-- The per-motion-step buffer validation loop shared by
`GeometryInstance::Priv::fillBuildInput` and `updateBuildInput`: every
motion step's buffer must be valid and agree with step 0 on element count
and stride.  (The writes into the geometry instance's transient device
pointer array are not modelled; they carry no information beyond the
buffers themselves.) -/
def checkMotionBuffers (buffers : List BufferView) (numMotionSteps : Nat) :
    Except String Unit :=
  (List.range numMotionSteps).foldlM
    (fun _ i =>
      let b := buffers.getD i default
      let b0 := buffers.getD 0 default
      if ¬ b.isValid then .error "Buffer for a motion step is not set."
      else if b.numElements ≠ b0.numElements then
        .error "Num elements for a motion step does not match that of 0."
      else if b.stride ≠ b0.stride then
        .error "Stride for a motion step does not match that of 0."
      else .ok ())
    ()

/-- `GeometryInstance::Priv::fillBuildInput`: validate the geometry's
buffers and produce the build-input descriptor.  For triangles the index
format and triangle buffer must be consistent before the vertex buffers are
checked. -/
def GeometryInstance.fillBuildInput (gi : GeometryInstance) (preTransform : Nat) :
    Except String BuildInput :=
  if gi.forCustomPrimitives then
    (checkMotionBuffers gi.primitiveAabbBuffers gi.numMotionSteps).map
      (fun _ => .filled gi preTransform)
  else
    if (¬ gi.indexFormatIsNone : Bool) = gi.triangleBuffer.isValid then
      (checkMotionBuffers gi.vertexBuffers gi.numMotionSteps).map
        (fun _ => .filled gi preTransform)
    else
      .error "Triangle buffer must be provided if using a index format other than None, otherwise must not be provided."

/-- `GeometryInstance::Priv::updateBuildInput`: re-validate the buffers and
refresh the pointer fields of an existing build input (modelled as
refreshing the whole snapshot). -/
def GeometryInstance.updateBuildInput (gi : GeometryInstance) (preTransform : Nat)
    (_input : BuildInput) : Except String BuildInput :=
  if gi.forCustomPrimitives then
    (checkMotionBuffers gi.primitiveAabbBuffers gi.numMotionSteps).map
      (fun _ => .filled gi preTransform)
  else
    (checkMotionBuffers gi.vertexBuffers gi.numMotionSteps).map
      (fun _ => .filled gi preTransform)

/-- `optixu::ASTradeoff`. -/
inductive ASTradeoff where
  | Default
  | PreferFastTrace
  | PreferFastBuild
deriving DecidableEq

/-- The bits of `OptixAccelBuildOptions::buildFlags` set by
`prepareForBuild`. -/
structure BuildFlags where
  preferFastTrace : Bool
  preferFastBuild : Bool
  allowUpdate : Bool
  allowCompaction : Bool
  allowRandomVertexAccess : Bool
deriving DecidableEq

/-- All-zero build flags.  (The C++ leaves `buildOptions` indeterminate
until the first `prepareForBuild`; zero is the value the source relies on
for the flag tests to be meaningful before that point.) -/
def BuildFlags.zero : BuildFlags := ⟨false, false, false, false, false⟩

/-- The flag computation in `prepareForBuild` (both GAS and IAS; the IAS
never sets `allowRandomVertexAccess`). -/
def mkBuildFlags (tradeoff : ASTradeoff) (au ac arva : Bool) : BuildFlags :=
  { preferFastTrace := tradeoff == ASTradeoff.PreferFastTrace
    preferFastBuild := tradeoff == ASTradeoff.PreferFastBuild
    allowUpdate := au
    allowCompaction := ac
    allowRandomVertexAccess := arva }

/-- `OptixAccelBuildOptions::operation`. -/
inductive BuildOperation where
  | build
  | update
deriving DecidableEq

/-- `OptixAccelBufferSizes`. -/
structure MemoryRequirement where
  outputSizeInBytes : Nat
  tempSizeInBytes : Nat
  tempUpdateSizeInBytes : Nat
deriving DecidableEq

instance : Inhabited MemoryRequirement := ⟨⟨0, 0, 0⟩⟩

/-- `optixu::GeometryAccelerationStructure::Priv`: children, per-material-set
ray-type counts, configuration, transient build inputs, and the lifecycle
flags `readyToBuild / available / readyToCompact / compactedAvailable`.
Traversable handles are opaque `Nat`s. -/
structure GAS where
  forCustomPrimitives : Bool
  userDataSizeAlign : SizeAlign
  numRayTypesPerMaterialSet : List Nat
  children : List GChild
  buildInputs : List BuildInput
  motionNumKeys : Nat
  buildFlags : BuildFlags
  operation : BuildOperation
  memoryRequirement : MemoryRequirement
  compactedSize : Nat
  handle : Nat
  compactedHandle : Nat
  accelBuffer : BufferView
  compactedAccelBuffer : BufferView
  tradeoff : ASTradeoff
  allowUpdate : Bool
  allowCompaction : Bool
  allowRandomVertexAccess : Bool
  readyToBuild : Bool
  available : Bool
  readyToCompact : Bool
  compactedAvailable : Bool
deriving DecidableEq

/-- The state established by the `GeometryAccelerationStructure::Priv`
constructor (for a triangle GAS; the custom-primitive flag is the
constructor argument). -/
def gasInit (forCustomPrimitives : Bool) : GAS :=
  { forCustomPrimitives
    userDataSizeAlign := SizeAlign.init
    numRayTypesPerMaterialSet := []
    children := []
    buildInputs := []
    motionNumKeys := 0
    buildFlags := BuildFlags.zero
    operation := .build
    memoryRequirement := default
    compactedSize := 0
    handle := 0
    compactedHandle := 0
    accelBuffer := default
    compactedAccelBuffer := default
    tradeoff := .Default
    allowUpdate := false
    allowCompaction := false
    allowRandomVertexAccess := false
    readyToBuild := false
    available := false
    readyToCompact := false
    compactedAvailable := false }

instance : Inhabited GAS := ⟨gasInit false⟩

/-- `GeometryAccelerationStructure::Priv::getNumMaterialSets()`. -/
def GAS.getNumMaterialSets (s : GAS) : Nat :=
  s.numRayTypesPerMaterialSet.length

/-- `GeometryAccelerationStructure::Priv::calcMaxRecordSizeAlign(matSetIdx)`:
maximum over the children's record `SizeAlign`s, plus the GAS user data. -/
def GAS.calcMaxRecordSizeAlign (s : GAS) (matSetIdx : Nat) : Except String SizeAlign :=
  (s.children.foldlM
      (fun (acc : SizeAlign) (c : GChild) =>
        (c.geomInst.calcMaxRecordSizeAlign matSetIdx).map acc.max)
      SizeAlign.init).map
    (fun sa => sa.append s.userDataSizeAlign)

/-- `GeometryAccelerationStructure::Priv::calcNumSBTRecords(matSetIdx)`:
sum of the children's record counts, times the ray-type count of the
requested material set. -/
def GAS.calcNumSBTRecords (s : GAS) (matSetIdx : Nat) : Nat :=
  (s.children.foldl (fun (n : Nat) (c : GChild) => n + c.geomInst.getNumSBTRecords) 0) *
    s.numRayTypesPerMaterialSet.getD matSetIdx 0

/-- `GeometryAccelerationStructure::Priv::fillSBTRecords(pipeline, matSetIdx,
records)`, abstracted to the total number of records written (the byte
cursor advances by `singleRecordSize` per record at the call site). -/
def GAS.fillSBTRecords (s : GAS) (matSetIdx : Nat) : Except String Nat :=
  if matSetIdx < s.numRayTypesPerMaterialSet.length then
    let numRayTypes := s.numRayTypesPerMaterialSet.getD matSetIdx 0
    s.children.foldlM
      (fun n c => (c.geomInst.fillSBTRecords numRayTypes).map (n + ·))
      0
  else .error "Material set index is out of bounds."

/-- `GeometryAccelerationStructure::Priv::markDirty()`: clear the four
lifecycle flags.  (Its `scene->markSBTLayoutDirty()` side effect lives in
the `Scene`-level operations below.) -/
def GAS.markDirty (s : GAS) : GAS :=
  { s with readyToBuild := false, available := false,
           readyToCompact := false, compactedAvailable := false }

/-- `GeometryAccelerationStructure::Priv::isReady()`. -/
def GAS.isReady (s : GAS) : Bool :=
  s.available || s.compactedAvailable

/-- `GeometryAccelerationStructure::Priv::getHandle()`: requires readiness;
prefers the compacted handle. -/
def GAS.getHandle (s : GAS) : Except String Nat :=
  if ¬ s.isReady then .error "Traversable handle is not ready."
  else if s.compactedAvailable then .ok s.compactedHandle
  else if s.available then .ok s.handle
  else .ok 0

/-- `GeometryAccelerationStructure::setConfiguration`: reject random vertex
access on a custom-primitive GAS; store the configuration; mark dirty only
when something actually changed. -/
def GAS.setConfiguration (s : GAS) (tradeoff : ASTradeoff) (au ac arva : Bool) :
    GAS × Except String Unit :=
  if s.forCustomPrimitives ∧ arva then
    (s, .error "Random vertex access is the feature only for triangle GAS.")
  else
    let changed := s.tradeoff ≠ tradeoff ∨ s.allowUpdate ≠ au ∨
      s.allowCompaction ≠ ac ∨ s.allowRandomVertexAccess ≠ arva
    let s1 := { s with tradeoff := tradeoff, allowUpdate := au,
                       allowCompaction := ac, allowRandomVertexAccess := arva }
    (if changed then s1.markDirty else s1, .ok ())

/-- `GeometryAccelerationStructure::setMotionOptions` (time and flag fields
not modelled): store the key count and mark dirty. -/
def GAS.setMotionOptions (s : GAS) (numKeys : Nat) : GAS :=
  GAS.markDirty { s with motionNumKeys := numKeys }

/-- `GeometryAccelerationStructure::addChild`: reject a primitive-kind
mismatch and duplicates, then append and mark dirty.  (The null-pointer and
scene-membership validations concern node identity across scenes, which the
single-scene model does not represent.) -/
def GAS.addChild (s : GAS) (geomInst : GeometryInstance) (preTransform : Nat) :
    GAS × Except String Unit :=
  if geomInst.forCustomPrimitives ≠ s.forCustomPrimitives then
    (s, .error "Primitive kind mismatch between this GAS and the geometry instance.")
  else
    let child : GChild := ⟨geomInst, preTransform⟩
    if s.children.contains child then
      (s, .error "Geometry instance with this transform has been already added.")
    else
      (GAS.markDirty { s with children := s.children ++ [child] }, .ok ())

/-- `GeometryAccelerationStructure::removeChild`: reject an absent child,
then erase the first occurrence and mark dirty. -/
def GAS.removeChild (s : GAS) (geomInst : GeometryInstance) (preTransform : Nat) :
    GAS × Except String Unit :=
  let child : GChild := ⟨geomInst, preTransform⟩
  if s.children.contains child then
    (GAS.markDirty { s with children := s.children.erase child }, .ok ())
  else
    (s, .error "Geometry instance with this transform has not been added.")

/-- The GAS-local part of
`GeometryAccelerationStructure::setNumMaterialSets`: resize the ray-type
table, padding with 0.  (No lifecycle flag changes; the
`scene->markSBTLayoutDirty()` call lives in the Scene-level operation.) -/
def GAS.setNumMaterialSets (s : GAS) (numMatSets : Nat) : GAS :=
  { s with numRayTypesPerMaterialSet := listResize s.numRayTypesPerMaterialSet numMatSets 0 }

/-- The GAS-local part of `GeometryAccelerationStructure::setNumRayTypes`:
bounds-check the material set index and store the ray-type count.  (No
lifecycle flag changes; the `scene->markSBTLayoutDirty()` call lives in the
Scene-level operation.) -/
def GAS.setNumRayTypes (s : GAS) (matSetIdx numRayTypes : Nat) :
    GAS × Except String Unit :=
  if matSetIdx < s.numRayTypesPerMaterialSet.length then
    ({ s with numRayTypesPerMaterialSet :=
        s.numRayTypesPerMaterialSet.set matSetIdx numRayTypes }, .ok ())
  else
    (s, .error "Material set index is out of bounds.")

/-- The child loop of `GeometryAccelerationStructure::prepareForBuild`:
fill each child's build input into slot `idx`, then validate that the
child's motion-step count matches the GAS's.  On an error the already
performed writes persist (the thrown exception leaves the object partially
updated); a child whose own `fillBuildInput` throws leaves its slot as it
was (the partially written descriptor fields are below the granularity of
the `BuildInput` abstraction). -/
def gasFillLoop (numMotionSteps : Nat) :
    List GChild → Nat → List BuildInput → List BuildInput × Except String Unit
  | [], _, inputs => (inputs, .ok ())
  | c :: rest, idx, inputs =>
    match c.geomInst.fillBuildInput c.preTransform with
    | .error e => (inputs, .error e)
    | .ok bi =>
      let inputs1 := inputs.set idx bi
      if c.geomInst.numMotionSteps = numMotionSteps then
        gasFillLoop numMotionSteps rest (idx + 1) inputs1
      else
        (inputs1, .error "Motion step count of a child does not match that of this GAS.")

/-- The child loop of `rebuild`/`update`: refresh each child's build input
in place; on an error the earlier refreshes persist. -/
def gasUpdateLoop :
    List GChild → Nat → List BuildInput → List BuildInput × Except String Unit
  | [], _, inputs => (inputs, .ok ())
  | c :: rest, idx, inputs =>
    match c.geomInst.updateBuildInput c.preTransform (inputs.getD idx .empty) with
    | .error e => (inputs, .error e)
    | .ok bi => gasUpdateLoop rest (idx + 1) (inputs.set idx bi)

/-- `GeometryAccelerationStructure::prepareForBuild`: resize the transient
build-input vector to the child count, fill it (validating each child),
then derive the build flags from the configuration, store the memory
requirement reported by the external `optixAccelComputeMemoryUsage` (taken
as the parameter `mr`) and set `readyToBuild`. -/
def GAS.prepareForBuild (s : GAS) (mr : MemoryRequirement) :
    GAS × Except String MemoryRequirement :=
  let inputs0 := listResize s.buildInputs s.children.length .empty
  let numMotionSteps := Nat.max s.motionNumKeys 1
  match gasFillLoop numMotionSteps s.children 0 inputs0 with
  | (inputs, .error e) => ({ s with buildInputs := inputs }, .error e)
  | (inputs, .ok _) =>
    ({ s with buildInputs := inputs,
              operation := .build,
              buildFlags := mkBuildFlags s.tradeoff s.allowUpdate s.allowCompaction
                s.allowRandomVertexAccess,
              memoryRequirement := mr,
              readyToBuild := true }, .ok mr)

/-- `GeometryAccelerationStructure::rebuild`: requires a prior
`prepareForBuild` and sufficient buffers; refreshes the build inputs, issues
the asynchronous build (whose resulting traversable handle is the parameter
`newHandle`), stores the output buffer, sets `available` and clears any
previous compacted state. -/
def GAS.rebuild (s : GAS) (accelBuffer scratchBuffer : BufferView) (newHandle : Nat) :
    GAS × Except String Nat :=
  if ¬ s.readyToBuild then
    (s, .error "You need to call prepareForBuild() before rebuild.")
  else if accelBuffer.sizeInBytes < s.memoryRequirement.outputSizeInBytes then
    (s, .error "Size of the given buffer is not enough.")
  else if scratchBuffer.sizeInBytes < s.memoryRequirement.tempSizeInBytes then
    (s, .error "Size of the given scratch buffer is not enough.")
  else
    match gasUpdateLoop s.children 0 s.buildInputs with
    | (inputs, .error e) => ({ s with buildInputs := inputs }, .error e)
    | (inputs, .ok _) =>
      ({ s with buildInputs := inputs,
                operation := .build,
                handle := newHandle,
                accelBuffer := accelBuffer,
                available := true,
                readyToCompact := false,
                compactedHandle := 0,
                compactedAvailable := false }, .ok newHandle)

/-- `GeometryAccelerationStructure::prepareForCompact`: requires the
compaction build flag and a built AS; a no-op when compacted data already
exists; otherwise blocks on the completion event and reads back the
device-computed compacted size (the parameter `deviceCompactedSize`), then
sets `readyToCompact`. -/
def GAS.prepareForCompact (s : GAS) (deviceCompactedSize : Nat) :
    GAS × Except String Unit :=
  if ¬ s.buildFlags.allowCompaction then
    (s, .error "This AS does not allow compaction.")
  else if ¬ s.available then
    (s, .error "Uncompacted AS has not been built yet.")
  else if s.compactedAvailable then
    (s, .ok ())
  else
    ({ s with compactedSize := deviceCompactedSize, readyToCompact := true }, .ok ())

/-- `GeometryAccelerationStructure::compact`: requires the compaction flag,
a prior successful `prepareForCompact`, a built AS and a large enough
buffer; issues the asynchronous compaction (resulting handle
`newCompactedHandle`) and sets `compactedAvailable` without invalidating the
uncompacted handle. -/
def GAS.compact (s : GAS) (compactedAccelBuffer : BufferView) (newCompactedHandle : Nat) :
    GAS × Except String Nat :=
  if ¬ s.buildFlags.allowCompaction then
    (s, .error "This AS does not allow compaction.")
  else if ¬ s.readyToCompact then
    (s, .error "You need to call prepareForCompact() before compaction.")
  else if ¬ s.available then
    (s, .error "Uncompacted AS has not been built yet.")
  else if compactedAccelBuffer.sizeInBytes < s.compactedSize then
    (s, .error "Size of the given buffer is not enough.")
  else
    ({ s with compactedHandle := newCompactedHandle,
              compactedAccelBuffer := compactedAccelBuffer,
              compactedAvailable := true }, .ok newCompactedHandle)

/-- `GeometryAccelerationStructure::removeUncompacted`: a no-op unless a
compacted AS exists and compaction is enabled; otherwise discards the
uncompacted handle. -/
def GAS.removeUncompacted (s : GAS) : GAS :=
  if ¬ s.compactedAvailable ∨ ¬ s.buildFlags.allowCompaction then s
  else { s with handle := 0, available := false }

/-- `GeometryAccelerationStructure::update`: requires the update build flag,
a built AS and a large enough scratch buffer; refreshes the build inputs and
issues the asynchronous in-place update (which must not change the handle,
so no handle field changes). -/
def GAS.update (s : GAS) (scratchBuffer : BufferView) : GAS × Except String Unit :=
  if ¬ s.buildFlags.allowUpdate then
    (s, .error "This AS does not allow update.")
  else if ¬ (s.available ∨ s.compactedAvailable) then
    (s, .error "AS has not been built yet.")
  else if scratchBuffer.sizeInBytes < s.memoryRequirement.tempUpdateSizeInBytes then
    (s, .error "Size of the given scratch buffer is not enough.")
  else
    match gasUpdateLoop s.children 0 s.buildInputs with
    | (inputs, .error e) => ({ s with buildInputs := inputs }, .error e)
    | (inputs, .ok _) =>
      ({ s with buildInputs := inputs, operation := .update }, .ok ())

/-- `sizeof(OptixInstance)` from the OptiX SDK headers (external to this
repository): 80 bytes. -/
def sizeofOptixInstance : Nat := 80

/-- `optixu::InstanceAccelerationStructure::Priv`: the instance children
(modelled as opaque identity tokens; the per-instance record contents
resolve against other scene nodes), the materialized instance count, the
configuration, and the same lifecycle flags as a GAS. -/
structure IAS where
  children : List Nat
  numInstances : Nat
  motionNumKeys : Nat
  buildFlags : BuildFlags
  operation : BuildOperation
  memoryRequirement : MemoryRequirement
  compactedSize : Nat
  handle : Nat
  compactedHandle : Nat
  instanceBuffer : BufferView
  accelBuffer : BufferView
  compactedAccelBuffer : BufferView
  tradeoff : ASTradeoff
  allowUpdate : Bool
  allowCompaction : Bool
  readyToBuild : Bool
  available : Bool
  readyToCompact : Bool
  compactedAvailable : Bool
deriving DecidableEq

/-- The state established by the `InstanceAccelerationStructure::Priv`
constructor. -/
def iasInit : IAS :=
  { children := []
    numInstances := 0
    motionNumKeys := 0
    buildFlags := BuildFlags.zero
    operation := .build
    memoryRequirement := default
    compactedSize := 0
    handle := 0
    compactedHandle := 0
    instanceBuffer := default
    accelBuffer := default
    compactedAccelBuffer := default
    tradeoff := .Default
    allowUpdate := false
    allowCompaction := false
    readyToBuild := false
    available := false
    readyToCompact := false
    compactedAvailable := false }

instance : Inhabited IAS := ⟨iasInit⟩

/-- `InstanceAccelerationStructure::Priv::markDirty()`. -/
def IAS.markDirty (s : IAS) : IAS :=
  { s with readyToBuild := false, available := false,
           readyToCompact := false, compactedAvailable := false }

/-- `InstanceAccelerationStructure::Priv::isReady()`. -/
def IAS.isReady (s : IAS) : Bool :=
  s.available || s.compactedAvailable

/-- `InstanceAccelerationStructure::Priv::getHandle()`: requires readiness;
prefers the compacted handle (the unreachable fall-through after the
should-not-be-called assertion returns 0). -/
def IAS.getHandle (s : IAS) : Except String Nat :=
  if ¬ s.isReady then .error "Traversable handle is not ready."
  else if s.compactedAvailable then .ok s.compactedHandle
  else if s.available then .ok s.handle
  else .ok 0

/-- `InstanceAccelerationStructure::setConfiguration`. -/
def IAS.setConfiguration (s : IAS) (tradeoff : ASTradeoff) (au ac : Bool) : IAS :=
  let changed := s.tradeoff ≠ tradeoff ∨ s.allowUpdate ≠ au ∨ s.allowCompaction ≠ ac
  let s1 := { s with tradeoff := tradeoff, allowUpdate := au, allowCompaction := ac }
  if changed then s1.markDirty else s1

/-- `InstanceAccelerationStructure::setMotionOptions` (time and flag fields
not modelled). -/
def IAS.setMotionOptions (s : IAS) (numKeys : Nat) : IAS :=
  IAS.markDirty { s with motionNumKeys := numKeys }

/-- `InstanceAccelerationStructure::addChild`: reject duplicates, append and
mark dirty. -/
def IAS.addChild (s : IAS) (inst : Nat) : IAS × Except String Unit :=
  if s.children.contains inst then
    (s, .error "Instance has been already added.")
  else
    (IAS.markDirty { s with children := s.children ++ [inst] }, .ok ())

/-- `InstanceAccelerationStructure::removeChild`: reject an absent child,
erase and mark dirty. -/
def IAS.removeChild (s : IAS) (inst : Nat) : IAS × Except String Unit :=
  if s.children.contains inst then
    (IAS.markDirty { s with children := s.children.erase inst }, .ok ())
  else
    (s, .error "Instance has not been added.")

/-- `InstanceAccelerationStructure::prepareForBuild`: requires the Scene's
SBT layout to be generated (`layoutDone` reflects
`scene->sbtLayoutGenerationDone()`), resizes the instance array to the
child count, fills each instance record (`fillOk` abstracts the outcome of
the `Instance::Priv::fillInstance` calls, which read the readiness and SBT
offsets of *other* scene nodes), then derives the build flags, stores the
externally computed memory requirement and sets `readyToBuild`.  On a fill
failure the already performed instance-array resize persists. -/
def IAS.prepareForBuild (s : IAS) (layoutDone fillOk : Bool) (mr : MemoryRequirement) :
    IAS × Except String MemoryRequirement :=
  if ¬ layoutDone then
    (s, .error "Shader binding table layout generation has not been done.")
  else
    let s1 := { s with numInstances := s.children.length }
    if ¬ fillOk then
      (s1, .error "A child instance is not ready or its SBT offset is missing.")
    else
      ({ s1 with operation := .build,
                 buildFlags := mkBuildFlags s.tradeoff s.allowUpdate s.allowCompaction false,
                 memoryRequirement := mr,
                 readyToBuild := true }, .ok mr)

/-- `InstanceAccelerationStructure::rebuild`: requires a prior
`prepareForBuild` and sufficient accel/scratch/instance buffers; refreshes
every instance record (`updateOk` abstracts the `updateInstance` calls),
uploads them, issues the asynchronous build with resulting handle
`newHandle`, sets `available` and clears any previous compacted state. -/
def IAS.rebuild (s : IAS) (instanceBuffer accelBuffer scratchBuffer : BufferView)
    (updateOk : Bool) (newHandle : Nat) : IAS × Except String Nat :=
  if ¬ s.readyToBuild then
    (s, .error "You need to call prepareForBuild() before rebuild.")
  else if accelBuffer.sizeInBytes < s.memoryRequirement.outputSizeInBytes then
    (s, .error "Size of the given buffer is not enough.")
  else if scratchBuffer.sizeInBytes < s.memoryRequirement.tempSizeInBytes then
    (s, .error "Size of the given scratch buffer is not enough.")
  else if instanceBuffer.sizeInBytes < s.numInstances * sizeofOptixInstance then
    (s, .error "Size of the given instance buffer is not enough.")
  else if ¬ updateOk then
    (s, .error "A child instance is not ready or its SBT offset is missing.")
  else
    ({ s with operation := .build,
              handle := newHandle,
              instanceBuffer := instanceBuffer,
              accelBuffer := accelBuffer,
              available := true,
              readyToCompact := false,
              compactedHandle := 0,
              compactedAvailable := false }, .ok newHandle)

/-- `InstanceAccelerationStructure::prepareForCompact`: same logic as the
GAS version. -/
def IAS.prepareForCompact (s : IAS) (deviceCompactedSize : Nat) :
    IAS × Except String Unit :=
  if ¬ s.buildFlags.allowCompaction then
    (s, .error "This AS does not allow compaction.")
  else if ¬ s.available then
    (s, .error "Uncompacted AS has not been built yet.")
  else if s.compactedAvailable then
    (s, .ok ())
  else
    ({ s with compactedSize := deviceCompactedSize, readyToCompact := true }, .ok ())

/-- `InstanceAccelerationStructure::compact`: same logic as the GAS
version. -/
def IAS.compact (s : IAS) (compactedAccelBuffer : BufferView) (newCompactedHandle : Nat) :
    IAS × Except String Nat :=
  if ¬ s.buildFlags.allowCompaction then
    (s, .error "This AS does not allow compaction.")
  else if ¬ s.readyToCompact then
    (s, .error "You need to call prepareForCompact() before compaction.")
  else if ¬ s.available then
    (s, .error "Uncompacted AS has not been built yet.")
  else if compactedAccelBuffer.sizeInBytes < s.compactedSize then
    (s, .error "Size of the given buffer is not enough.")
  else
    ({ s with compactedHandle := newCompactedHandle,
              compactedAccelBuffer := compactedAccelBuffer,
              compactedAvailable := true }, .ok newCompactedHandle)

/-- `InstanceAccelerationStructure::removeUncompacted`. -/
def IAS.removeUncompacted (s : IAS) : IAS :=
  if ¬ s.compactedAvailable ∨ ¬ s.buildFlags.allowCompaction then s
  else { s with handle := 0, available := false }

/-- `InstanceAccelerationStructure::update`: requires the update build flag,
a built AS and a large enough scratch buffer; refreshes the instance
records (`updateOk`) and issues the asynchronous in-place update. -/
def IAS.update (s : IAS) (scratchBuffer : BufferView) (updateOk : Bool) :
    IAS × Except String Unit :=
  if ¬ s.buildFlags.allowUpdate then
    (s, .error "This AS does not allow update.")
  else if ¬ (s.available ∨ s.compactedAvailable) then
    (s, .error "AS has not been built yet.")
  else if scratchBuffer.sizeInBytes < s.memoryRequirement.tempUpdateSizeInBytes then
    (s, .error "Size of the given scratch buffer is not enough.")
  else if ¬ updateOk then
    (s, .error "A child instance is not ready or its SBT offset is missing.")
  else
    ({ s with operation := .update }, .ok ())

/-- `optixu::Scene::Priv`: the owned GASs and IASs (`geomASs` is the
`std::unordered_set` in its current iteration order; GAS identity is the
position in this list, standing for pointer identity), the SBT offset map
keyed by (GAS, material set index), the cached record stride and total
record count, and the layout dirty flag.  (Transforms hold no layout
state and are modelled separately.) -/
structure Scene where
  geomASs : List GAS
  sbtOffsets : List ((Nat × Nat) × Nat)
  singleRecordSize : Nat
  numSBTRecords : Nat
  instASs : List IAS
  sbtLayoutIsUpToDate : Bool
deriving DecidableEq

/-- The state established by the `Scene::Priv` constructor. -/
def sceneInit : Scene :=
  { geomASs := []
    sbtOffsets := []
    singleRecordSize := OPTIX_SBT_RECORD_HEADER_SIZE
    numSBTRecords := 0
    instASs := []
    sbtLayoutIsUpToDate := false }

/-- `Scene::Priv::markSBTLayoutDirty()`: clear the layout flag and mark
every owned IAS dirty. -/
def Scene.markSBTLayoutDirty (s : Scene) : Scene :=
  { s with sbtLayoutIsUpToDate := false,
           instASs := s.instASs.map IAS.markDirty }

/-- The inner loop of the stride pass of
`Scene::generateShaderBindingTableLayout`: componentwise maximum of
`calcMaxRecordSizeAlign` over this GAS's material set indices, starting
from the default accumulator. -/
def gasMaxOverMatSets (gas : GAS) : Except String SizeAlign :=
  (List.range gas.getNumMaterialSets).foldlM
    (fun (acc : SizeAlign) (i : Nat) => (gas.calcMaxRecordSizeAlign i).map acc.max)
    SizeAlign.init

/-- The outer loop of the stride pass: fold the per-GAS aligned-up maximum
record sizes into the running stride; a thrown validation error leaves the
stride computed so far in place. -/
def genStrideLoop : List GAS → Nat → Nat × Except String Unit
  | [], srs => (srs, .ok ())
  | gas :: rest, srs =>
    match gasMaxOverMatSets gas with
    | .error e => (srs, .error e)
    | .ok maxRSA => genStrideLoop rest (Nat.max srs maxRSA.alignUp.size)

/-- The (GAS index, material set index) pairs in the order the offset pass
of `generateShaderBindingTableLayout` visits them: GASs in container
iteration order, material set indices in increasing order. -/
def layoutKeys (gases : List GAS) : List (Nat × Nat) :=
  (gases.enum.map
    (fun p => (List.range p.2.getNumMaterialSets).map (fun m => (p.1, m)))).flatten

/-- `layoutKeys` factored through an explicit (index, GAS) pair list:
`layoutKeys gases = pairsKeys gases.enum` definitionally. -/
def pairsKeys (pairs : List (Nat × GAS)) : List (Nat × Nat) :=
  (pairs.map
    (fun p => (List.range p.2.getNumMaterialSets).map (fun m => (p.1, m)))).flatten

/-- The offset pass: visit the pairs in order, assign each the running
cursor as its offset, and advance the cursor by that pair's
`calcNumSBTRecords`.  Returns the offset map (in insertion order) and the
final cursor (`numSBTRecords`). -/
def genOffsetLoop (gases : List GAS) : List (Nat × Nat) → Nat → List ((Nat × Nat) × Nat) × Nat
  | [], cursor => ([], cursor)
  | key :: rest, cursor =>
    let n := (gases.getD key.1 default).calcNumSBTRecords key.2
    let (offsets, total) := genOffsetLoop gases rest (cursor + n)
    ((key, cursor) :: offsets, total)

/-- `Scene::generateShaderBindingTableLayout(memorySize)`: when the cached
layout is up to date, return the cached values without recomputation;
otherwise clear the offset map, reset the stride to the record header size,
run the stride pass (whose validation errors leave the partially reset
state behind) and the offset pass, cache the results, and mark the layout
up to date.  Returns the new state and `memorySize =
singleRecordSize * max(numSBTRecords, 1)`. -/
def Scene.generateShaderBindingTableLayout (s : Scene) : Scene × Except String Nat :=
  if s.sbtLayoutIsUpToDate then
    (s, .ok (s.singleRecordSize * Nat.max s.numSBTRecords 1))
  else
    let s0 := { s with sbtOffsets := [],
                       singleRecordSize := OPTIX_SBT_RECORD_HEADER_SIZE }
    match genStrideLoop s0.geomASs OPTIX_SBT_RECORD_HEADER_SIZE with
    | (srs, .error e) => ({ s0 with singleRecordSize := srs }, .error e)
    | (srs, .ok _) =>
      let (offsets, total) := genOffsetLoop s0.geomASs (layoutKeys s0.geomASs) 0
      ({ s0 with singleRecordSize := srs,
                 sbtOffsets := offsets,
                 numSBTRecords := total,
                 sbtLayoutIsUpToDate := true },
       .ok (srs * Nat.max total 1))

/-- The inner loop of `Scene::Priv::setupHitGroupSBT` for one GAS: for each
material set index, record the byte position where the block of records
starts, then advance the cursor by `numRecords * singleRecordSize`. -/
def setupInner (srs gasIdx : Nat) (gas : GAS) :
    List Nat → Nat → Except String (List ((Nat × Nat) × Nat) × Nat)
  | [], cursor => .ok ([], cursor)
  | m :: rest, cursor =>
    match gas.fillSBTRecords m with
    | .error e => .error e
    | .ok numRecords =>
      match setupInner srs gasIdx gas rest (cursor + numRecords * srs) with
      | .error e => .error e
      | .ok (blocks, final) => .ok (((gasIdx, m), cursor) :: blocks, final)

/-- The outer loop of `setupHitGroupSBT`: GASs in container iteration
order. -/
def setupOuter (srs : Nat) :
    List (Nat × GAS) → Nat → Except String (List ((Nat × Nat) × Nat) × Nat)
  | [], cursor => .ok ([], cursor)
  | (gasIdx, gas) :: rest, cursor =>
    match setupInner srs gasIdx gas (List.range gas.getNumMaterialSets) cursor with
    | .error e => .error e
    | .ok (blocks, cursor1) =>
      match setupOuter srs rest cursor1 with
      | .error e => .error e
      | .ok (blocks1, final) => .ok (blocks ++ blocks1, final)

/-- `Scene::Priv::setupHitGroupSBT(stream, pipeline, sbt, hostMem)`,
abstracted to the byte positions at which each (GAS, material set) block of
records is written: validate the destination size, then walk the GASs and
their material sets in container iteration order, letting each fill its
records at the running byte cursor.  (The record bytes themselves and the
upload are below the granularity of the claims.) -/
def Scene.setupHitGroupSBT (s : Scene) (sbtSizeInBytes : Nat) :
    Except String (List ((Nat × Nat) × Nat)) :=
  if sbtSizeInBytes < s.singleRecordSize * s.numSBTRecords then
    .error "Hit group shader binding table size is not enough."
  else
    match setupOuter s.singleRecordSize s.geomASs.enum 0 with
    | .error e => .error e
    | .ok (blocks, _) => .ok blocks

/-- `Scene::Priv::getSBTOffset(gas, matSetIdx)`: offset-map lookup with a
bounds validation. -/
def Scene.getSBTOffset (s : Scene) (gasIdx matSetIdx : Nat) : Except String Nat :=
  match s.sbtOffsets.lookup (gasIdx, matSetIdx) with
  | some off => .ok off
  | none => .error "Material set index is out of bounds."

/-- The Scene-level view of `GeometryAccelerationStructure::setNumRayTypes`
for the GAS at position `gasIdx`: the GAS-local update followed by
`scene->markSBTLayoutDirty()` (which also marks every owned IAS dirty).
No GAS lifecycle flag is touched. -/
def Scene.gasSetNumRayTypes (s : Scene) (gasIdx matSetIdx numRayTypes : Nat) :
    Scene × Except String Unit :=
  let gas := s.geomASs.getD gasIdx default
  match gas.setNumRayTypes matSetIdx numRayTypes with
  | (_, .error e) => (s, .error e)
  | (gas1, .ok _) =>
    (Scene.markSBTLayoutDirty { s with geomASs := s.geomASs.set gasIdx gas1 }, .ok ())

/-- The Scene-level view of
`GeometryAccelerationStructure::setNumMaterialSets`. -/
def Scene.gasSetNumMaterialSets (s : Scene) (gasIdx numMatSets : Nat) : Scene :=
  let gas := s.geomASs.getD gasIdx default
  Scene.markSBTLayoutDirty
    { s with geomASs := s.geomASs.set gasIdx (gas.setNumMaterialSets numMatSets) }

/-- An IEEE-754 single-precision value in the exact-arithmetic model used
for `Transform::setStaticTransform`: a finite value is carried as the exact
rational it denotes.  The model is faithful on computations whose
intermediate results are exactly representable and in range, which holds
for the concrete matrices evaluated by the theorems below (entries 0 and
1). -/
inductive F32 where
  | fin (q : ℚ)
  | pinf
  | ninf
  | nan
deriving DecidableEq

/-- `1.0f / d` for a finite `d`: IEEE division by +0 yields +infinity, and
the reciprocal of a finite nonzero single is never a zero (it is at least
the smallest subnormal). -/
def recipOne (d : ℚ) : F32 :=
  if d = 0 then .pinf else .fin d⁻¹

/-- Whether a float compares equal to `0.0f` (infinities and NaN do
not). -/
def F32.isZero : F32 → Bool
  | .fin q => q = 0
  | _ => false

/-- IEEE product of a float with a finite float: infinity times zero is
NaN. -/
def F32.mulQ : F32 → ℚ → F32
  | .fin a, b => .fin (a * b)
  | .pinf, b => if b = 0 then .nan else if 0 < b then .pinf else .ninf
  | .ninf, b => if b = 0 then .nan else if 0 < b then .ninf else .pinf
  | .nan, _ => .nan

/-- `optixu::TransformType`. -/
inductive TransformType where
  | Static
  | MatrixMotion
  | SRTMotion
  | Invalid
deriving DecidableEq

/-- The `OptixStaticTransform` payload of a static `Transform`: the 3x4
row-major matrix and its stored "inverse". -/
structure StaticTransformData where
  transform : List ℚ
  invTransform : List F32
deriving DecidableEq

/-- `optixu::Transform::Priv`, restricted to the static-transform payload
(motion payloads carry no inverse and are not involved in the claims). -/
structure Transform where
  type : TransformType
  staticData : Option StaticTransformData
  available : Bool
deriving DecidableEq

/-- The determinant expression of `Transform::setStaticTransform` over the
upper-left 3x3 block of the 3x4 row-major matrix (entry `i` of the flat
array is `mat[i]`). -/
def det3x3 (mat : List ℚ) : ℚ :=
  let g := fun (i : Nat) => mat.getD i 0
  g 0 * g 5 * g 10 + g 1 * g 6 * g 8 + g 2 * g 4 * g 9 -
    g 2 * g 5 * g 8 - g 1 * g 4 * g 10 - g 0 * g 6 * g 9

/-- The cofactor-expansion inverse stored by `setStaticTransform`: each 3x3
entry is `invDet` times an exact cofactor, and the translation entries are
the negated inputs. -/
def staticInverse (invDet : F32) (mat : List ℚ) : List F32 :=
  let g := fun (i : Nat) => mat.getD i 0
  [invDet.mulQ (g 5 * g 10 - g 6 * g 9),
   invDet.mulQ (g 2 * g 9 - g 1 * g 10),
   invDet.mulQ (g 1 * g 6 - g 2 * g 5),
   .fin (-(g 3)),
   invDet.mulQ (g 6 * g 8 - g 4 * g 10),
   invDet.mulQ (g 0 * g 10 - g 2 * g 8),
   invDet.mulQ (g 2 * g 4 - g 0 * g 6),
   .fin (-(g 7)),
   invDet.mulQ (g 4 * g 9 - g 5 * g 8),
   invDet.mulQ (g 1 * g 8 - g 0 * g 9),
   invDet.mulQ (g 0 * g 5 - g 1 * g 4),
   .fin (-(g 11))]

/-- `Transform::setStaticTransform(matrix)`: requires the Static
configuration; computes `invDet = 1.0f / det` and rejects the matrix only
when `invDet` itself compares equal to `0.0f`; otherwise stores the matrix
and the cofactor inverse and marks the transform dirty. -/
def Transform.setStaticTransform (t : Transform) (mat : List ℚ) :
    Transform × Except String Unit :=
  if t.type ≠ TransformType.Static then
    (t, .error "This transform has been configured as static transform.")
  else
    let invDet := recipOne (det3x3 mat)
    if invDet.isZero then
      (t, .error "Given matrix is not invertible.")
    else
      ({ t with staticData := some ⟨mat, staticInverse invDet mat⟩,
                available := false }, .ok ())

/-- The 3x4 identity matrix. -/
def identityMatQ : List ℚ :=
  [1, 0, 0, 0, 0, 1, 0, 0, 0, 0, 1, 0]

/-- The 3x4 identity matrix as stored floats. -/
def identityMatF : List F32 :=
  identityMatQ.map .fin

/-- A `Transform` as left by `setConfiguration(TransformType::Static, ...)`:
the payload is initialized to the identity transform and inverse. -/
def xfmStaticConfigured : Transform :=
  { type := .Static
    staticData := some ⟨identityMatQ, identityMatF⟩
    available := false }

/-- `Except` success test. -/
def exOk : Except String α → Bool
  | .ok _ => true
  | .error _ => false

/-- The public mutating operations of a GAS, with the outputs of the
external GPU entry points (memory requirements, handles, the compacted-size
readback) carried as constructor arguments. -/
inductive GASOp where
  | setConfiguration (tradeoff : ASTradeoff) (au ac arva : Bool)
  | setMotionOptions (numKeys : Nat)
  | addChild (geomInst : GeometryInstance) (preTransform : Nat)
  | removeChild (geomInst : GeometryInstance) (preTransform : Nat)
  | setNumMaterialSets (numMatSets : Nat)
  | setNumRayTypes (matSetIdx numRayTypes : Nat)
  | prepareForBuild (mr : MemoryRequirement)
  | rebuild (accelBuffer scratchBuffer : BufferView) (newHandle : Nat)
  | prepareForCompact (deviceCompactedSize : Nat)
  | compact (compactedAccelBuffer : BufferView) (newCompactedHandle : Nat)
  | removeUncompacted
  | update (scratchBuffer : BufferView)
  | markDirty

/-- One step of a GAS history: the state after the call (partial mutations
included), paired with a cycle marker that becomes false when a rebuild
succeeds (a new build cycle) and true when `prepareForCompact` succeeds in
the cycle. -/
def gasStep : GAS × Bool → GASOp → GAS × Bool
  | (s, flag), .setConfiguration t au ac arva => ((s.setConfiguration t au ac arva).1, flag)
  | (s, flag), .setMotionOptions n => (s.setMotionOptions n, flag)
  | (s, flag), .addChild gi pre => ((s.addChild gi pre).1, flag)
  | (s, flag), .removeChild gi pre => ((s.removeChild gi pre).1, flag)
  | (s, flag), .setNumMaterialSets n => (s.setNumMaterialSets n, flag)
  | (s, flag), .setNumRayTypes i n => ((s.setNumRayTypes i n).1, flag)
  | (s, flag), .prepareForBuild mr => ((s.prepareForBuild mr).1, flag)
  | (s, flag), .rebuild a b h =>
    let r := s.rebuild a b h
    (r.1, if exOk r.2 then false else flag)
  | (s, flag), .prepareForCompact d =>
    let r := s.prepareForCompact d
    (r.1, if exOk r.2 then true else flag)
  | (s, flag), .compact b h => ((s.compact b h).1, flag)
  | (s, flag), .removeUncompacted => (s.removeUncompacted, flag)
  | (s, flag), .update sb => ((s.update sb).1, flag)
  | (s, flag), .markDirty => (s.markDirty, flag)

/-- A GAS history: run the operations from the constructor state. -/
def gasRun (forCustomPrimitives : Bool) (ops : List GASOp) : GAS × Bool :=
  ops.foldl gasStep (gasInit forCustomPrimitives, false)

/-- The public mutating operations of an IAS.  `layoutDone` reflects the
owning Scene's layout flag at the time of the call; `fillOk`/`updateOk`
abstract the outcomes of the per-instance record materializations, which
read other scene nodes. -/
inductive IASOp where
  | setConfiguration (tradeoff : ASTradeoff) (au ac : Bool)
  | setMotionOptions (numKeys : Nat)
  | addChild (inst : Nat)
  | removeChild (inst : Nat)
  | prepareForBuild (layoutDone fillOk : Bool) (mr : MemoryRequirement)
  | rebuild (instanceBuffer accelBuffer scratchBuffer : BufferView)
      (updateOk : Bool) (newHandle : Nat)
  | prepareForCompact (deviceCompactedSize : Nat)
  | compact (compactedAccelBuffer : BufferView) (newCompactedHandle : Nat)
  | removeUncompacted
  | update (scratchBuffer : BufferView) (updateOk : Bool)
  | markDirty

/-- One step of an IAS history, with the same cycle marker as `gasStep`. -/
def iasStep : IAS × Bool → IASOp → IAS × Bool
  | (s, flag), .setConfiguration t au ac => (s.setConfiguration t au ac, flag)
  | (s, flag), .setMotionOptions n => (s.setMotionOptions n, flag)
  | (s, flag), .addChild i => ((s.addChild i).1, flag)
  | (s, flag), .removeChild i => ((s.removeChild i).1, flag)
  | (s, flag), .prepareForBuild ld fo mr => ((s.prepareForBuild ld fo mr).1, flag)
  | (s, flag), .rebuild ib ab sb uo h =>
    let r := s.rebuild ib ab sb uo h
    (r.1, if exOk r.2 then false else flag)
  | (s, flag), .prepareForCompact d =>
    let r := s.prepareForCompact d
    (r.1, if exOk r.2 then true else flag)
  | (s, flag), .compact b h => ((s.compact b h).1, flag)
  | (s, flag), .removeUncompacted => (s.removeUncompacted, flag)
  | (s, flag), .update sb uo => ((s.update sb uo).1, flag)
  | (s, flag), .markDirty => (s.markDirty, flag)

/-- An IAS history: run the operations from the constructor state. -/
def iasRun (ops : List IASOp) : IAS × Bool :=
  ops.foldl iasStep (iasInit, false)

/-- The configuration/build-flag consistency invariant of a GAS: as soon as
any lifecycle flag is set, the cached `buildOptions.buildFlags` agree with
the current configuration (every configuration change either is a no-op or
clears all lifecycle flags). -/
def GAS.Inv (s : GAS) : Prop :=
  (s.readyToBuild || s.available || s.readyToCompact || s.compactedAvailable) = true →
    s.buildFlags = mkBuildFlags s.tradeoff s.allowUpdate s.allowCompaction
      s.allowRandomVertexAccess

instance (s : GAS) : Decidable s.Inv := by
  unfold GAS.Inv; infer_instance

/-- The corresponding invariant of an IAS. -/
def IAS.Inv (s : IAS) : Prop :=
  (s.readyToBuild || s.available || s.readyToCompact || s.compactedAvailable) = true →
    s.buildFlags = mkBuildFlags s.tradeoff s.allowUpdate s.allowCompaction false

instance (s : IAS) : Decidable s.Inv := by
  unfold IAS.Inv; infer_instance

/-- The invariant carried along a GAS history: flag consistency, plus
"`readyToCompact` implies `prepareForCompact` succeeded in the current
build cycle". -/
def GASPhi (p : GAS × Bool) : Prop :=
  p.1.Inv ∧ (p.1.readyToCompact = true → p.2 = true)

/-- The invariant carried along an IAS history. -/
def IASPhi (p : IAS × Bool) : Prop :=
  p.1.Inv ∧ (p.1.readyToCompact = true → p.2 = true)

instance [DecidableEq ε] [DecidableEq α] : DecidableEq (Except ε α)
  | .ok a, .ok b =>
    if h : a = b then .isTrue (by rw [h]) else .isFalse (by simp [h])
  | .ok _, .error _ => .isFalse (by simp)
  | .error _, .ok _ => .isFalse (by simp)
  | .error a, .error b =>
    if h : a = b then .isTrue (by rw [h]) else .isFalse (by simp [h])

/-! Concrete states used by the counterexamples and witnesses below. -/

/-- A material with no user data (the constructor state). -/
def matPlain : Material := ⟨SizeAlign.init⟩

/-- A valid single-motion-step triangle geometry instance with one material
slot whose default material is set. -/
def giTriangle : GeometryInstance :=
  { forCustomPrimitives := false
    numMotionSteps := 1
    vertexBuffers := [⟨1, 3, 12⟩]
    primitiveAabbBuffers := []
    indexFormatIsNone := true
    triangleBuffer := default
    buildInputFlags := [0]
    materials := [[some matPlain]]
    userDataSizeAlign := SizeAlign.init }

/-- A geometry instance with 3 material slots (defaults set), as in the
spec's worked example. -/
def giThreeMats : GeometryInstance :=
  { forCustomPrimitives := false
    numMotionSteps := 1
    vertexBuffers := [⟨1, 3, 12⟩]
    primitiveAabbBuffers := []
    indexFormatIsNone := true
    triangleBuffer := default
    buildInputFlags := [0, 0, 0]
    materials := [[some matPlain], [some matPlain], [some matPlain]]
    userDataSizeAlign := SizeAlign.init }

/-- The spec's worked example: one GAS with one 3-material child and
material sets with 1 and 2 ray types. -/
def gasExample : GAS :=
  { gasInit false with
      children := [⟨giThreeMats, 0⟩]
      numRayTypesPerMaterialSet := [1, 2] }

/-- A GAS whose motion-key count (2) disagrees with its single child's
motion-step count (1): `prepareForBuild` fails validation only after
resizing and filling the transient build-input list. -/
def gasMotionMismatch : GAS :=
  { gasInit false with
      children := [⟨giTriangle, 0⟩]
      motionNumKeys := 2 }

/-- A built GAS (one material set, one ray type) inside a scene, used to
observe what `setNumRayTypes` does to its flags. -/
def gasBuilt : GAS :=
  { gasInit false with
      numRayTypesPerMaterialSet := [1]
      available := true
      compactedAvailable := true }

/-- A prepared-and-built IAS, used to observe the dirty cascade. -/
def iasBuilt : IAS :=
  { iasInit with readyToBuild := true, available := true }

/-- A scene holding `gasBuilt` and `iasBuilt` with an up-to-date layout. -/
def sceneBuilt : Scene :=
  { sceneInit with
      geomASs := [gasBuilt]
      instASs := [iasBuilt]
      sbtLayoutIsUpToDate := true }

/-- A scene holding the worked-example GAS. -/
def sceneExample : Scene :=
  { sceneInit with geomASs := [gasExample] }

/-- A GAS with both an uncompacted and a compacted structure available. -/
def gasBothHandles : GAS :=
  { gasInit false with
      available := true
      compactedAvailable := true
      handle := 5
      compactedHandle := 7 }

/-- An IAS with both an uncompacted and a compacted structure available. -/
def iasBothHandles : IAS :=
  { iasInit with
      available := true
      compactedAvailable := true
      handle := 5
      compactedHandle := 7 }

/-- The item sequence of the C8 example: alignments 4 then 8, with a
trailing size that is not a multiple of 8. -/
def itemsC8 : List SizeAlign := [⟨4, 4⟩, ⟨1, 8⟩]

/-- The all-zero (singular) 3x4 matrix. -/
def zeroMatQ : List ℚ := [0, 0, 0, 0, 0, 0, 0, 0, 0, 0, 0, 0]

/-- The example scene after layout generation. -/
def sceneExampleGenerated : Scene :=
  (sceneExample.generateShaderBindingTableLayout).1

/-- A geometry instance whose single material slot has no default (set 0)
material, so the layout computation rejects it. -/
def giNoDefault : GeometryInstance :=
  { giTriangle with materials := [[none]] }

/-- A GAS holding `giNoDefault`. -/
def gasNoDefault : GAS :=
  { gasInit false with
      children := [⟨giNoDefault, 0⟩]
      numRayTypesPerMaterialSet := [1] }

/-- A scene with a stale cached layout (nonempty offset map, stride 64)
whose only GAS fails the default-material validation: generating the
layout fails after the offset map has been cleared and the stride reset. -/
def sceneMissingDefault : Scene :=
  { sceneInit with
      geomASs := [gasNoDefault]
      sbtOffsets := [((0, 0), 5)]
      singleRecordSize := 64
      numSBTRecords := 7 }

/-- A transform that has not been configured yet
(`TransformType::Invalid`). -/
def xfmUnconfigured : Transform :=
  { type := .Invalid
    staticData := none
    available := false }

/-! Supporting lemmas. -/

lemma roundUp_dvd (s a : Nat) : a ∣ roundUp s a :=
  dvd_mul_left a _

lemma addList_offsets : ∀ (init : SizeAlign) (items : List SizeAlign),
    List.Forall₂ (fun sa off => sa.alignment ∣ off) items (init.addList items).2
  | _, [] => List.Forall₂.nil
  | init, sa :: rest => by
    simp only [SizeAlign.addList, SizeAlign.add]
    exact List.Forall₂.cons (roundUp_dvd _ _) (addList_offsets _ rest)

lemma maxAlignment_cons (sa : SizeAlign) (rest : List SizeAlign) :
    maxAlignment (sa :: rest) = Nat.max sa.alignment (maxAlignment rest) := rfl

lemma addList_alignment : ∀ (init : SizeAlign) (items : List SizeAlign),
    1 ≤ init.alignment →
    (init.addList items).1.alignment = Nat.max init.alignment (maxAlignment items)
  | init, [], h => by
    simp only [SizeAlign.addList, maxAlignment, List.foldr_nil]
    exact (Nat.max_eq_left h).symm
  | init, sa :: rest, h => by
    simp only [SizeAlign.addList, SizeAlign.add]
    rw [addList_alignment _ rest (le_trans h (Nat.le_max_left _ _)), maxAlignment_cons]
    exact Nat.max_assoc _ _ _

lemma one_le_maxAlignment : ∀ (items : List SizeAlign), 1 ≤ maxAlignment items
  | [] => le_refl 1
  | sa :: rest => by
    rw [maxAlignment_cons]
    exact le_trans (one_le_maxAlignment rest) (Nat.le_max_right _ _)

lemma getD_set_self (l : List α) (i : Nat) (x d : α) :
    (l.set i x).getD i d = if i < l.length then x else d := by
  by_cases h : i < l.length
  · rw [if_pos h, List.getD_eq_getElem _ _ (by simpa using h)]
    exact List.getElem_set_self _
  · rw [if_neg h, List.getD_eq_default]
    simpa using Nat.le_of_not_lt h

lemma foldl_records : ∀ (children : List GChild) (n : Nat),
    children.foldl (fun (n : Nat) (c : GChild) => n + c.geomInst.getNumSBTRecords) n =
      n + (children.map (fun c => c.geomInst.getNumSBTRecords)).sum
  | [], n => by simp
  | c :: rest, n => by
    simp only [List.foldl_cons, List.map_cons, List.sum_cons]
    rw [foldl_records rest (n + c.geomInst.getNumSBTRecords)]
    omega

lemma genStrideLoop_ok : ∀ (gases : List GAS) (acc res : Nat),
    genStrideLoop gases acc = (res, .ok ()) →
    ∃ ms : List SizeAlign,
      List.Forall₂ (fun gas m => gasMaxOverMatSets gas = .ok m) gases ms ∧
      res = ms.foldl (fun a m => Nat.max a m.alignUp.size) acc
  | [], acc, res => by
    intro h
    simp only [genStrideLoop, Prod.mk.injEq] at h
    exact ⟨[], .nil, by simp [h.1.symm]⟩
  | gas :: rest, acc, res => by
    intro h
    unfold genStrideLoop at h
    rcases hm : gasMaxOverMatSets gas with e | m
    · rw [hm] at h
      simp at h
    · rw [hm] at h
      obtain ⟨ms, hms, hres⟩ := genStrideLoop_ok rest _ res h
      exact ⟨m :: ms, .cons hm hms, hres⟩

lemma foldl_max_size : ∀ (ms : List SizeAlign) (acc : Nat),
    ms.foldl (fun a m => Nat.max a m.alignUp.size) acc =
      Nat.max acc ((ms.map (fun m => m.alignUp.size)).foldr Nat.max 0)
  | [], acc => by simp
  | m :: ms, acc => by
    simp only [List.foldl_cons, List.map_cons, List.foldr_cons]
    rw [foldl_max_size ms _]
    exact Nat.max_assoc _ _ _

lemma genOffsetLoop_spec : ∀ (gases : List GAS) (keys : List (Nat × Nat)) (cursor : Nat),
    genOffsetLoop gases keys cursor =
      ((List.range keys.length).map
        (fun i => (keys.getD i (0, 0),
          cursor + ((keys.take i).map
            (fun k => (gases.getD k.1 default).calcNumSBTRecords k.2)).sum)),
       cursor + (keys.map (fun k => (gases.getD k.1 default).calcNumSBTRecords k.2)).sum)
  | gases, [], cursor => by
    simp [genOffsetLoop]
  | gases, key :: rest, cursor => by
    unfold genOffsetLoop
    dsimp only
    rw [genOffsetLoop_spec gases rest
      (cursor + (gases.getD key.1 default).calcNumSBTRecords key.2)]
    simp only [Prod.mk.injEq]
    constructor
    · rw [List.length_cons, List.range_succ_eq_map, List.map_cons, List.map_map]
      simp only [List.cons.injEq]
      constructor
      · simp
      · apply List.map_congr_left
        intro i _
        simp only [Function.comp_apply, List.getD_cons_succ, List.take_succ_cons,
          List.map_cons, List.sum_cons, Prod.mk.injEq, true_and]
        omega
    · simp only [List.map_cons, List.sum_cons]
      omega

/-! The claim theorems. -/

/-- C8 (counterexample): it is not the case that for every item sequence
with alignments in {4, 8, 16}, the final accumulated size is a multiple of
the maximum alignment among the items: appending an item of size 4 and
alignment 4 and then an item of size 1 and alignment 8 yields final size 9,
which the maximum alignment 8 does not divide (`add` aligns *before*
appending, so the trailing item's size is not padded). -/
theorem C8_counterexample :
    ¬ (∀ (items : List SizeAlign),
        (∀ sa ∈ items, sa.alignment = 4 ∨ sa.alignment = 8 ∨ sa.alignment = 16) →
        maxAlignment items ∣ (SizeAlign.init.addList items).1.size) := by
  intro h
  have hd := h [⟨4, 4⟩, ⟨1, 8⟩] (by decide)
  have h9 : (SizeAlign.init.addList [⟨4, 4⟩, ⟨1, 8⟩]).1.size = 9 := by decide
  have hm : maxAlignment [⟨4, 4⟩, ⟨1, 8⟩] = 8 := by decide
  rw [h9, hm] at hd
  norm_num at hd

/-- C8 (amended): appending items with alignments in {4, 8, 16} in any
order yields, for every item, a returned offset that is a multiple of that
item's own alignment, and a final accumulated size that — after `alignUp`,
the explicit final padding step the layout engine performs — is a multiple
of the maximum alignment among the items appended. -/
theorem C8_add_roundtrip_amended (items : List SizeAlign)
    (_halign : ∀ sa ∈ items, sa.alignment = 4 ∨ sa.alignment = 8 ∨ sa.alignment = 16) :
    List.Forall₂ (fun sa off => sa.alignment ∣ off) items (SizeAlign.init.addList items).2 ∧
    maxAlignment items ∣ ((SizeAlign.init.addList items).1.alignUp).size := by
  refine ⟨addList_offsets _ _, ?_⟩
  have ha : (SizeAlign.init.addList items).1.alignment = maxAlignment items := by
    rw [addList_alignment _ _ (le_refl 1)]
    exact Nat.max_eq_right (one_le_maxAlignment items)
  show maxAlignment items ∣ roundUp (SizeAlign.init.addList items).1.size
    (SizeAlign.init.addList items).1.alignment
  rw [ha]
  exact roundUp_dvd _ _

/-- C8 (witness): the amended claim at the concrete sequence
[(4, 4), (1, 8)]. -/
theorem C8_witness :
    List.Forall₂ (fun sa off => sa.alignment ∣ off) itemsC8
        (SizeAlign.init.addList itemsC8).2 ∧
    maxAlignment itemsC8 ∣ ((SizeAlign.init.addList itemsC8).1.alignUp).size :=
  C8_add_roundtrip_amended itemsC8 (by decide)

/-- C6: for a GAS whose children keep `buildInputFlags` and `materials` at
the same length (the invariant `setNumMaterials` maintains),
`calcNumSBTRecords(matSetIdx)` is the sum of the children's material-slot
counts times the ray-type count of the material set. -/
theorem C6_calcNumSBTRecords_product (gas : GAS) (matSetIdx : Nat)
    (hwf : ∀ c ∈ gas.children, c.geomInst.buildInputFlags.length = c.geomInst.materials.length) :
    gas.calcNumSBTRecords matSetIdx =
      (gas.children.map (fun c => c.geomInst.materials.length)).sum *
        gas.numRayTypesPerMaterialSet.getD matSetIdx 0 := by
  unfold GAS.calcNumSBTRecords
  rw [foldl_records]
  simp only [Nat.zero_add]
  have hmap : gas.children.map (fun c => c.geomInst.getNumSBTRecords) =
      gas.children.map (fun c => c.geomInst.materials.length) := by
    apply List.map_congr_left
    intro c hc
    exact hwf c hc
  rw [hmap]

/-- C6 (witness): the spec's worked example — one GAS, one child with 3
material slots, ray-type counts 1 and 2 — yields 3 and 6 records. -/
theorem C6_witness :
    gasExample.calcNumSBTRecords 0 = 3 ∧ gasExample.calcNumSBTRecords 1 = 6 := by
  constructor
  · rw [C6_calcNumSBTRecords_product gasExample 0 (by decide)]; decide
  · rw [C6_calcNumSBTRecords_product gasExample 1 (by decide)]; decide

/-- C10: for both GAS and IAS, `getHandle` fails unless the structure is
ready (available or compacted available); whenever a compacted structure
exists it returns the compacted handle — even if the uncompacted structure
is still available — and it returns the uncompacted handle only when no
compacted structure exists. -/
theorem C10_getHandle_prefers_compacted (g : GAS) (a : IAS) :
    (g.isReady = false → exOk g.getHandle = false) ∧
    (g.compactedAvailable = true → g.getHandle = .ok g.compactedHandle) ∧
    (g.compactedAvailable = false → g.available = true → g.getHandle = .ok g.handle) ∧
    (a.isReady = false → exOk a.getHandle = false) ∧
    (a.compactedAvailable = true → a.getHandle = .ok a.compactedHandle) ∧
    (a.compactedAvailable = false → a.available = true → a.getHandle = .ok a.handle) := by
  refine ⟨?_, ?_, ?_, ?_, ?_, ?_⟩
  · intro h; simp [GAS.getHandle, h, exOk]
  · intro h; simp [GAS.getHandle, GAS.isReady, h]
  · intro h1 h2; simp [GAS.getHandle, GAS.isReady, h1, h2]
  · intro h; simp [IAS.getHandle, h, exOk]
  · intro h; simp [IAS.getHandle, IAS.isReady, h]
  · intro h1 h2; simp [IAS.getHandle, IAS.isReady, h1, h2]

/-- C10 (witness): with both structures available and handles 5
(uncompacted) and 7 (compacted), both `getHandle`s return 7, and the
fresh (unbuilt) structures fail. -/
theorem C10_witness :
    gasBothHandles.getHandle = .ok 7 ∧ iasBothHandles.getHandle = .ok 7 ∧
    exOk (gasInit false).getHandle = false ∧ exOk iasInit.getHandle = false :=
  ⟨(C10_getHandle_prefers_compacted gasBothHandles iasBothHandles).2.1 rfl,
   (C10_getHandle_prefers_compacted gasBothHandles iasBothHandles).2.2.2.2.1 rfl,
   (C10_getHandle_prefers_compacted (gasInit false) iasInit).1 rfl,
   (C10_getHandle_prefers_compacted (gasInit false) iasInit).2.2.2.1 rfl⟩

/-- C9: the guard `invDet != 0.0f` in `Transform::setStaticTransform`
cannot reject a zero determinant under IEEE arithmetic — `1.0f / 0.0f` is
+infinity, which compares unequal to zero — so the all-zero (singular)
matrix is *accepted* and a non-finite inverse is stored, contradicting the
specification (and the code's own error message); the invertible identity
matrix behaves as specified, storing the identity as its own inverse. -/
theorem C9_setStaticTransform_singular_not_rejected :
    det3x3 zeroMatQ = 0 ∧
    (xfmStaticConfigured.setStaticTransform zeroMatQ).2 = .ok () ∧
    det3x3 identityMatQ = 1 ∧
    (xfmStaticConfigured.setStaticTransform identityMatQ).2 = .ok () ∧
    (xfmStaticConfigured.setStaticTransform identityMatQ).1.staticData =
      some ⟨identityMatQ, identityMatF⟩ := by
  have hz : det3x3 zeroMatQ = 0 := by norm_num [det3x3, zeroMatQ]
  have hi : det3x3 identityMatQ = 1 := by norm_num [det3x3, identityMatQ]
  refine ⟨hz, ?_, hi, ?_, ?_⟩
  · simp [Transform.setStaticTransform, xfmStaticConfigured, recipOne, F32.isZero, hz]
  · simp only [Transform.setStaticTransform, xfmStaticConfigured, recipOne, hi, F32.isZero]
    norm_num
  · simp only [Transform.setStaticTransform, xfmStaticConfigured, recipOne, hi, F32.isZero]
    norm_num [staticInverse, identityMatQ, identityMatF, F32.mulQ]

/-- C3 (counterexample): `GeometryAccelerationStructure::prepareForBuild`
resizes and fills the transient build-input list *before* validating the
children's motion-step counts, so on a motion-step mismatch it throws a
recoverable validation error while leaving the object in a different state
than before the call. -/
theorem C3_counterexample :
    exOk (gasMotionMismatch.prepareForBuild default).2 = false ∧
    (gasMotionMismatch.prepareForBuild default).1 ≠ gasMotionMismatch := by
  decide

/-- C3 (amended): the public mutating operations of the subsystem validate
before mutating — a failed validation leaves the state unchanged — with
two exceptions forced by the code: (a) the operations that refresh the
transient build-input or instance descriptors (GAS and IAS
`prepareForBuild`, `rebuild` and `update`) may leave those transient
arrays (for `prepareForBuild`, including their size) partially updated
when a validation error is thrown mid-refresh, every other field
(configuration, lifecycle flags, handles, children) staying unchanged; and
(b) `Scene::generateShaderBindingTableLayout` clears the SBT offset map
and resets the record stride before the missing-default-material
validation can throw, so a failed call leaves exactly those two
cached-layout fields modified, every other field — including the layout
dirty flag, which stays false so a later call recomputes — unchanged. -/
theorem C3_validate_then_mutate_amended (s : GAS) (a : IAS) (sc : Scene) (tr : Transform)
    (t : ASTradeoff) (au ac arva : Bool)
    (gi : GeometryInstance) (pre i n d h1 h2 : Nat) (mr : MemoryRequirement)
    (b1 b2 b3 : BufferView)
    (inst gasIdx matIdx nrt nhi di : Nat) (ld fo uo : Bool)
    (ib ab sbi : BufferView) (mat : List ℚ) :
    (exOk (s.setConfiguration t au ac arva).2 = false → (s.setConfiguration t au ac arva).1 = s) ∧
    (exOk (s.addChild gi pre).2 = false → (s.addChild gi pre).1 = s) ∧
    (exOk (s.removeChild gi pre).2 = false → (s.removeChild gi pre).1 = s) ∧
    (exOk (s.setNumRayTypes i n).2 = false → (s.setNumRayTypes i n).1 = s) ∧
    (exOk (s.prepareForCompact d).2 = false → (s.prepareForCompact d).1 = s) ∧
    (exOk (s.compact b1 h1).2 = false → (s.compact b1 h1).1 = s) ∧
    (exOk (s.prepareForBuild mr).2 = false →
      (s.prepareForBuild mr).1 = { s with buildInputs := (s.prepareForBuild mr).1.buildInputs }) ∧
    (exOk (s.rebuild b2 b3 h2).2 = false →
      (s.rebuild b2 b3 h2).1 = { s with buildInputs := (s.rebuild b2 b3 h2).1.buildInputs }) ∧
    (exOk (s.update b3).2 = false →
      (s.update b3).1 = { s with buildInputs := (s.update b3).1.buildInputs }) ∧
    (exOk (a.addChild inst).2 = false → (a.addChild inst).1 = a) ∧
    (exOk (a.removeChild inst).2 = false → (a.removeChild inst).1 = a) ∧
    (exOk (a.prepareForCompact di).2 = false → (a.prepareForCompact di).1 = a) ∧
    (exOk (a.compact ib nhi).2 = false → (a.compact ib nhi).1 = a) ∧
    (exOk (a.prepareForBuild ld fo mr).2 = false →
      (a.prepareForBuild ld fo mr).1 =
        { a with numInstances := (a.prepareForBuild ld fo mr).1.numInstances }) ∧
    (exOk (a.rebuild ib ab sbi uo nhi).2 = false →
      (a.rebuild ib ab sbi uo nhi).1 =
        { a with numInstances := (a.rebuild ib ab sbi uo nhi).1.numInstances }) ∧
    (exOk (a.update sbi uo).2 = false →
      (a.update sbi uo).1 = { a with numInstances := (a.update sbi uo).1.numInstances }) ∧
    (exOk sc.generateShaderBindingTableLayout.2 = false →
      sc.generateShaderBindingTableLayout.1 =
        { sc with sbtOffsets := sc.generateShaderBindingTableLayout.1.sbtOffsets,
                  singleRecordSize := sc.generateShaderBindingTableLayout.1.singleRecordSize }) ∧
    (exOk (sc.gasSetNumRayTypes gasIdx matIdx nrt).2 = false →
      (sc.gasSetNumRayTypes gasIdx matIdx nrt).1 = sc) ∧
    (exOk (tr.setStaticTransform mat).2 = false → (tr.setStaticTransform mat).1 = tr) := by
  refine ⟨?_, ?_, ?_, ?_, ?_, ?_, ?_, ?_, ?_, ?_, ?_, ?_, ?_, ?_, ?_, ?_, ?_, ?_, ?_⟩
  · unfold GAS.setConfiguration
    split
    · intro _; rfl
    · intro hco; simp [exOk] at hco
  · unfold GAS.addChild
    split
    · intro _; rfl
    · dsimp only
      split
      · intro _; rfl
      · intro hco; simp [exOk] at hco
  · unfold GAS.removeChild
    dsimp only
    split
    · intro hco; simp [exOk] at hco
    · intro _; rfl
  · unfold GAS.setNumRayTypes
    split
    · intro hco; simp [exOk] at hco
    · intro _; rfl
  · unfold GAS.prepareForCompact
    split
    · intro _; rfl
    · split
      · intro _; rfl
      · split
        · intro hco; simp [exOk] at hco
        · intro hco; simp [exOk] at hco
  · unfold GAS.compact
    split
    · intro _; rfl
    · split
      · intro _; rfl
      · split
        · intro _; rfl
        · split
          · intro _; rfl
          · intro hco; simp [exOk] at hco
  · unfold GAS.prepareForBuild
    dsimp only
    split
    · intro _; rfl
    · intro hco; simp [exOk] at hco
  · unfold GAS.rebuild
    split
    · intro _; rfl
    · split
      · intro _; rfl
      · split
        · intro _; rfl
        · split
          · intro _; rfl
          · intro hco; simp [exOk] at hco
  · unfold GAS.update
    split
    · intro _; rfl
    · split
      · intro _; rfl
      · split
        · intro _; rfl
        · split
          · intro _; rfl
          · intro hco; simp [exOk] at hco
  · unfold IAS.addChild
    split
    · intro _; rfl
    · intro hco; simp [exOk] at hco
  · unfold IAS.removeChild
    split
    · intro hco; simp [exOk] at hco
    · intro _; rfl
  · unfold IAS.prepareForCompact
    split
    · intro _; rfl
    · split
      · intro _; rfl
      · split
        · intro hco; simp [exOk] at hco
        · intro hco; simp [exOk] at hco
  · unfold IAS.compact
    split
    · intro _; rfl
    · split
      · intro _; rfl
      · split
        · intro _; rfl
        · split
          · intro _; rfl
          · intro hco; simp [exOk] at hco
  · unfold IAS.prepareForBuild
    split
    · intro _; rfl
    · dsimp only
      split
      · intro _; rfl
      · intro hco; simp [exOk] at hco
  · unfold IAS.rebuild
    split
    · intro _; rfl
    · split
      · intro _; rfl
      · split
        · intro _; rfl
        · split
          · intro _; rfl
          · split
            · intro _; rfl
            · intro hco; simp [exOk] at hco
  · unfold IAS.update
    split
    · intro _; rfl
    · split
      · intro _; rfl
      · split
        · intro _; rfl
        · split
          · intro _; rfl
          · intro hco; simp [exOk] at hco
  · unfold Scene.generateShaderBindingTableLayout
    split
    · intro hco; simp [exOk] at hco
    · dsimp only
      split
      · intro _; rfl
      · intro hco
        rcases hgo : genOffsetLoop sc.geomASs (layoutKeys sc.geomASs) 0 with ⟨o, tt⟩
        rw [hgo] at hco
        simp [exOk] at hco
  · unfold Scene.gasSetNumRayTypes
    dsimp only
    split
    · intro _; rfl
    · intro hco; simp [exOk] at hco
  · unfold Transform.setStaticTransform
    split
    · intro _; rfl
    · dsimp only
      split
      · intro _; rfl
      · intro hco; simp [exOk] at hco

/-- C3 (witness): the amended claim at concrete failing calls — a GAS
compact without preparation, a GAS prepareForBuild with a motion-step
mismatch, an IAS prepareForBuild without a generated layout, a Scene
layout generation with a missing default material, and a setStaticTransform
on an unconfigured transform. -/
theorem C3_witness :
    ((gasInit false).compact default 3).1 = gasInit false ∧
    (gasMotionMismatch.prepareForBuild default).1 =
      { gasMotionMismatch with
          buildInputs := (gasMotionMismatch.prepareForBuild default).1.buildInputs } ∧
    (iasInit.prepareForBuild false true default).1 =
      { iasInit with
          numInstances := (iasInit.prepareForBuild false true default).1.numInstances } ∧
    sceneMissingDefault.generateShaderBindingTableLayout.1 =
      { sceneMissingDefault with
          sbtOffsets := sceneMissingDefault.generateShaderBindingTableLayout.1.sbtOffsets,
          singleRecordSize :=
            sceneMissingDefault.generateShaderBindingTableLayout.1.singleRecordSize } ∧
    (xfmUnconfigured.setStaticTransform zeroMatQ).1 = xfmUnconfigured := by
  have hA := C3_validate_then_mutate_amended (gasInit false) iasInit sceneMissingDefault
    xfmUnconfigured .Default false false false giTriangle 0 0 0 0 3 0 default
    default default default 0 0 0 0 3 0 false true true default default default zeroMatQ
  have hB := C3_validate_then_mutate_amended gasMotionMismatch iasInit sceneMissingDefault
    xfmUnconfigured .Default false false false giTriangle 0 0 0 0 3 0 default
    default default default 0 0 0 0 3 0 false true true default default default zeroMatQ
  obtain ⟨_, _, _, _, _, a6, _, _, _, _, _, _, _, a14, _, _, a17, _, a19⟩ := hA
  obtain ⟨_, _, _, _, _, _, b7, _⟩ := hB
  exact ⟨a6 (by decide), b7 (by decide), a14 (by decide), a17 (by decide), a19 (by decide)⟩

/-- C5 (counterexample): `setNumRayTypes` does *not* flip the GAS's own
`available`/`compactedAvailable` flags: on a scene whose GAS is built and
compacted, the call succeeds and both flags remain true. -/
theorem C5_counterexample :
    exOk (sceneBuilt.gasSetNumRayTypes 0 0 2).2 = true ∧
    ((sceneBuilt.gasSetNumRayTypes 0 0 2).1.geomASs.getD 0 default).available = true ∧
    ((sceneBuilt.gasSetNumRayTypes 0 0 2).1.geomASs.getD 0 default).compactedAvailable = true := by
  decide

/-- C5 (amended): `setNumRayTypes` (with a valid material set index) sets
the owning Scene's layout dirty flag and marks every owned IAS dirty
(readyToBuild, available, readyToCompact and compactedAvailable all become
false), but leaves the GAS's own `available` and `compactedAvailable`
flags unchanged — it does not mark the GAS itself dirty. -/
theorem C5_setNumRayTypes_dirty_cascade_amended (s : Scene) (gasIdx matSetIdx n : Nat)
    (hidx : matSetIdx < (s.geomASs.getD gasIdx default).numRayTypesPerMaterialSet.length) :
    exOk (s.gasSetNumRayTypes gasIdx matSetIdx n).2 = true ∧
    (s.gasSetNumRayTypes gasIdx matSetIdx n).1.sbtLayoutIsUpToDate = false ∧
    (∀ a ∈ (s.gasSetNumRayTypes gasIdx matSetIdx n).1.instASs,
      a.readyToBuild = false ∧ a.available = false ∧
      a.readyToCompact = false ∧ a.compactedAvailable = false) ∧
    ((s.gasSetNumRayTypes gasIdx matSetIdx n).1.geomASs.getD gasIdx default).available =
      (s.geomASs.getD gasIdx default).available ∧
    ((s.gasSetNumRayTypes gasIdx matSetIdx n).1.geomASs.getD gasIdx default).compactedAvailable =
      (s.geomASs.getD gasIdx default).compactedAvailable := by
  unfold Scene.gasSetNumRayTypes GAS.setNumRayTypes
  dsimp only
  rw [if_pos hidx]
  refine ⟨rfl, rfl, ?_, ?_, ?_⟩
  · intro a ha
    simp only [Scene.markSBTLayoutDirty, List.mem_map] at ha
    obtain ⟨a0, _, rfl⟩ := ha
    exact ⟨rfl, rfl, rfl, rfl⟩
  · show ((s.geomASs.set gasIdx _).getD gasIdx default).available = _
    rw [getD_set_self]
    by_cases h : gasIdx < s.geomASs.length
    · rw [if_pos h]
    · rw [if_neg h, List.getD_eq_default _ _ (Nat.le_of_not_lt h)]
  · show ((s.geomASs.set gasIdx _).getD gasIdx default).compactedAvailable = _
    rw [getD_set_self]
    by_cases h : gasIdx < s.geomASs.length
    · rw [if_pos h]
    · rw [if_neg h, List.getD_eq_default _ _ (Nat.le_of_not_lt h)]

/-- C1: when the cached layout is dirty, `generateShaderBindingTableLayout`
computes (a) a global record stride that is the maximum, over every owned
GAS, of that GAS's maximum per-record SizeAlign (over its material sets)
aligned up to its own alignment, never less than the SBT record header
size; (b) for each (GAS, material set) pair in visitation order, a starting
offset equal to the running sum of `calcNumSBTRecords` over the pairs
visited before it; (c) a total record count equal to the sum over all
pairs; and returns `memorySize = stride * max(totalRecords, 1)`. -/
theorem C1_generateShaderBindingTableLayout_layout (s s1 : Scene) (mem : Nat)
    (hdirty : s.sbtLayoutIsUpToDate = false)
    (hgen : s.generateShaderBindingTableLayout = (s1, .ok mem)) :
    (∃ ms : List SizeAlign,
      List.Forall₂ (fun gas m => gasMaxOverMatSets gas = .ok m) s.geomASs ms ∧
      s1.singleRecordSize =
        Nat.max OPTIX_SBT_RECORD_HEADER_SIZE
          ((ms.map (fun m => m.alignUp.size)).foldr Nat.max 0)) ∧
    s1.sbtOffsets =
      (List.range (layoutKeys s.geomASs).length).map
        (fun i => ((layoutKeys s.geomASs).getD i (0, 0),
          (((layoutKeys s.geomASs).take i).map
            (fun k => (s.geomASs.getD k.1 default).calcNumSBTRecords k.2)).sum)) ∧
    s1.numSBTRecords =
      ((layoutKeys s.geomASs).map
        (fun k => (s.geomASs.getD k.1 default).calcNumSBTRecords k.2)).sum ∧
    mem = s1.singleRecordSize * Nat.max s1.numSBTRecords 1 := by
  unfold Scene.generateShaderBindingTableLayout at hgen
  rw [hdirty] at hgen
  simp only [Bool.false_eq_true, if_false] at hgen
  rcases hsl : genStrideLoop s.geomASs OPTIX_SBT_RECORD_HEADER_SIZE with ⟨srs, sres⟩
  rw [hsl] at hgen
  cases sres with
  | error e => simp at hgen
  | ok u =>
    rw [genOffsetLoop_spec] at hgen
    simp only [Prod.mk.injEq] at hgen
    obtain ⟨hs1, hmem⟩ := hgen
    obtain ⟨ms, hms, hsrs⟩ := genStrideLoop_ok _ _ _ hsl
    subst hs1
    refine ⟨⟨ms, hms, ?_⟩, by simp, by simp, ?_⟩
    · rw [hsrs, foldl_max_size]
    · simp only [Except.ok.injEq] at hmem
      dsimp only
      exact hmem.symm

/-- C1 (witness): the worked-example scene — one GAS, one 3-material child,
ray-type counts 1 and 2 — in which the stride is 32, the offsets are 0 and
3, the total is 9 records and the memory size is 288 bytes. -/
theorem C1_witness :
    (∃ ms : List SizeAlign,
      List.Forall₂ (fun gas m => gasMaxOverMatSets gas = .ok m) sceneExample.geomASs ms ∧
      sceneExampleGenerated.singleRecordSize =
        Nat.max OPTIX_SBT_RECORD_HEADER_SIZE
          ((ms.map (fun m => m.alignUp.size)).foldr Nat.max 0)) ∧
    sceneExampleGenerated.sbtOffsets =
      (List.range (layoutKeys sceneExample.geomASs).length).map
        (fun i => ((layoutKeys sceneExample.geomASs).getD i (0, 0),
          (((layoutKeys sceneExample.geomASs).take i).map
            (fun k => (sceneExample.geomASs.getD k.1 default).calcNumSBTRecords k.2)).sum)) ∧
    sceneExampleGenerated.numSBTRecords =
      ((layoutKeys sceneExample.geomASs).map
        (fun k => (sceneExample.geomASs.getD k.1 default).calcNumSBTRecords k.2)).sum ∧
    288 = sceneExampleGenerated.singleRecordSize *
      Nat.max sceneExampleGenerated.numSBTRecords 1 :=
  C1_generateShaderBindingTableLayout_layout sceneExample sceneExampleGenerated 288
    (by decide) (by decide)

/-- C7: `generateShaderBindingTableLayout` is idempotent — after a
successful call the layout is cached as up to date, and a second call with
no intervening edits takes the O(1) cached branch, leaving the state
untouched and returning the same memory size. -/
theorem C7_generateShaderBindingTableLayout_idempotent (s s1 : Scene) (mem : Nat)
    (hgen : s.generateShaderBindingTableLayout = (s1, .ok mem)) :
    s1.sbtLayoutIsUpToDate = true ∧
    s1.generateShaderBindingTableLayout = (s1, .ok mem) := by
  unfold Scene.generateShaderBindingTableLayout at hgen ⊢
  by_cases h : s.sbtLayoutIsUpToDate
  · rw [if_pos h] at hgen
    simp only [Prod.mk.injEq] at hgen
    obtain ⟨rfl, hmem⟩ := hgen
    rw [if_pos h]
    refine ⟨h, ?_⟩
    simp only [Prod.mk.injEq, true_and]
    exact hmem
  · rw [if_neg h] at hgen
    dsimp only at hgen
    rcases hsl : genStrideLoop s.geomASs OPTIX_SBT_RECORD_HEADER_SIZE with ⟨srs, sres⟩
    rw [hsl] at hgen
    cases sres with
    | error e => simp at hgen
    | ok u =>
      simp only [Prod.mk.injEq] at hgen
      obtain ⟨hs1, hmem⟩ := hgen
      subst hs1
      refine ⟨rfl, ?_⟩
      split
      · simp only [Prod.mk.injEq, true_and]
        exact hmem
      · rename_i hf
        exact absurd rfl hf

/-- C7 (witness): generating the layout of the worked-example scene and
then generating it again returns the same state and 288 bytes. -/
theorem C7_witness :
    sceneExampleGenerated.sbtLayoutIsUpToDate = true ∧
    sceneExampleGenerated.generateShaderBindingTableLayout =
      (sceneExampleGenerated, .ok 288) :=
  C7_generateShaderBindingTableLayout_idempotent sceneExample sceneExampleGenerated 288
    (by decide)

lemma foldlM_map_max_ok {α : Type} (f : α → Except String SizeAlign) :
    ∀ (l : List α) (acc r : SizeAlign),
    l.foldlM (fun (acc : SizeAlign) (x : α) => (f x).map acc.max) acc = .ok r →
    ∀ x ∈ l, ∃ v, f x = .ok v
  | [], _, _, _, x, hx => absurd hx (List.not_mem_nil x)
  | a :: l, acc, r, h, x, hx => by
    rw [List.foldlM_cons] at h
    rcases hf : f a with e | v
    · rw [hf] at h
      exact Except.noConfusion h
    · rw [hf] at h
      rcases List.mem_cons.mp hx with rfl | hmem
      · exact ⟨v, hf⟩
      · exact foldlM_map_max_ok f l _ r h x hmem

lemma slotRecord_ok_isSome (i : Nat) (slots : List (Option Material)) (v : SizeAlign)
    (h : slotRecordSizeAlign i slots = .ok v) : (slots.getD 0 none).isSome := by
  unfold slotRecordSizeAlign at h
  rcases hd : slots.getD 0 none with _ | m
  · rw [hd] at h
    simp at h
  · simp [hd]

lemma gi_calcMax_ok_defaults (gi : GeometryInstance) (i : Nat) (m : SizeAlign)
    (h : gi.calcMaxRecordSizeAlign i = .ok m) :
    ∀ slots ∈ gi.materials, (slots.getD 0 none).isSome := by
  unfold GeometryInstance.calcMaxRecordSizeAlign at h
  rcases hf : gi.materials.foldlM
      (fun (acc : SizeAlign) slots => (slotRecordSizeAlign i slots).map acc.max)
      SizeAlign.init with e | v
  · rw [hf] at h
    exact Except.noConfusion h
  · intro slots hs
    obtain ⟨v1, hv1⟩ := foldlM_map_max_ok (slotRecordSizeAlign i) gi.materials _ v hf slots hs
    exact slotRecord_ok_isSome i slots v1 hv1

lemma gi_fill_aux (nrt : Nat) :
    ∀ (slotsList : List (List (Option Material))) (n : Nat),
    (∀ slots ∈ slotsList, (slots.getD 0 none).isSome) →
    slotsList.foldlM
      (fun (n : Nat) slots =>
        match slots.getD 0 none with
        | none => Except.error
            "Default material (== material set 0) is not set for the slot."
        | some _ => Except.ok (n + nrt))
      n = .ok (n + slotsList.length * nrt)
  | [], n, _ => by
    simp only [List.foldlM_nil, List.length_nil, Nat.zero_mul, Nat.add_zero]
    rfl
  | slots :: rest, n, h => by
    rw [List.foldlM_cons]
    rcases hd : slots.getD 0 none with _ | m
    · have hsm := h slots (List.mem_cons_self slots rest)
      rw [hd] at hsm
      simp at hsm
    · show rest.foldlM _ (n + nrt) = _
      rw [gi_fill_aux nrt rest (n + nrt) (fun s hs => h s (List.mem_cons_of_mem _ hs))]
      simp only [List.length_cons, Except.ok.injEq]
      ring

lemma gi_fill_of_defaults (gi : GeometryInstance) (nrt : Nat)
    (h : ∀ slots ∈ gi.materials, (slots.getD 0 none).isSome) :
    gi.fillSBTRecords nrt = .ok (gi.materials.length * nrt) := by
  unfold GeometryInstance.fillSBTRecords
  have := gi_fill_aux nrt gi.materials 0 h
  simpa using this

lemma gas_calcMax_ok_children (gas : GAS) (i : Nat) (m : SizeAlign)
    (h : gas.calcMaxRecordSizeAlign i = .ok m) :
    ∀ c ∈ gas.children, ∃ mc, c.geomInst.calcMaxRecordSizeAlign i = .ok mc := by
  unfold GAS.calcMaxRecordSizeAlign at h
  rcases hf : gas.children.foldlM
      (fun (acc : SizeAlign) (c : GChild) =>
        (c.geomInst.calcMaxRecordSizeAlign i).map acc.max)
      SizeAlign.init with e | v
  · rw [hf] at h
    exact Except.noConfusion h
  · exact foldlM_map_max_ok (fun (c : GChild) => c.geomInst.calcMaxRecordSizeAlign i)
      gas.children _ v hf

lemma foldlM_fill_sum (nrt : Nat) :
    ∀ (children : List GChild) (n : Nat),
    (∀ c ∈ children, c.geomInst.fillSBTRecords nrt = .ok (c.geomInst.materials.length * nrt)) →
    children.foldlM (fun (n : Nat) (c : GChild) => (c.geomInst.fillSBTRecords nrt).map (n + ·)) n =
      .ok (n + (children.map (fun c => c.geomInst.materials.length * nrt)).sum)
  | [], n, _ => by
    simp only [List.foldlM_nil, List.map_nil, List.sum_nil, Nat.add_zero]
    rfl
  | c :: rest, n, h => by
    rw [List.foldlM_cons, h c (List.mem_cons_self c rest)]
    show rest.foldlM _ (n + c.geomInst.materials.length * nrt) = _
    rw [foldlM_fill_sum nrt rest _ (fun x hx => h x (List.mem_cons_of_mem _ hx))]
    simp only [List.map_cons, List.sum_cons, Except.ok.injEq]
    ring

lemma sum_map_mul_nrt (nrt : Nat) : ∀ (children : List GChild),
    (children.map (fun c => c.geomInst.materials.length * nrt)).sum =
      (children.map (fun c => c.geomInst.materials.length)).sum * nrt
  | [] => by simp
  | c :: rest => by
    simp only [List.map_cons, List.sum_cons]
    rw [sum_map_mul_nrt nrt rest]
    ring

lemma gas_fill_eq_calcNum (gas : GAS) (m : Nat)
    (hm : m < gas.numRayTypesPerMaterialSet.length)
    (hok : ∃ mm, gas.calcMaxRecordSizeAlign m = .ok mm)
    (hwf : ∀ c ∈ gas.children, c.geomInst.buildInputFlags.length = c.geomInst.materials.length) :
    gas.fillSBTRecords m = .ok (gas.calcNumSBTRecords m) := by
  obtain ⟨mm, hmm⟩ := hok
  unfold GAS.fillSBTRecords
  rw [if_pos hm]
  have hdef : ∀ c ∈ gas.children, c.geomInst.fillSBTRecords
      (gas.numRayTypesPerMaterialSet.getD m 0) =
      .ok (c.geomInst.materials.length * gas.numRayTypesPerMaterialSet.getD m 0) := by
    intro c hc
    obtain ⟨mc, hmc⟩ := gas_calcMax_ok_children gas m mm hmm c hc
    exact gi_fill_of_defaults _ _ (gi_calcMax_ok_defaults _ _ _ hmc)
  rw [foldlM_fill_sum _ gas.children 0 hdef]
  simp only [Nat.zero_add, Except.ok.injEq]
  rw [sum_map_mul_nrt]
  unfold GAS.calcNumSBTRecords
  rw [foldl_records]
  simp only [Nat.zero_add]
  have hmap : gas.children.map (fun c => c.geomInst.getNumSBTRecords) =
      gas.children.map (fun c => c.geomInst.materials.length) :=
    List.map_congr_left (fun c hc => hwf c hc)
  rw [hmap]

lemma genOffsetLoop_append (full : List GAS) :
    ∀ (k1 k2 : List (Nat × Nat)) (c : Nat),
    genOffsetLoop full (k1 ++ k2) c =
      ((genOffsetLoop full k1 c).1 ++ (genOffsetLoop full k2 (genOffsetLoop full k1 c).2).1,
       (genOffsetLoop full k2 (genOffsetLoop full k1 c).2).2)
  | [], k2, c => by simp [genOffsetLoop]
  | key :: k1, k2, c => by
    simp only [List.cons_append, genOffsetLoop, List.append_eq]
    rw [genOffsetLoop_append full k1 k2 _]

lemma setupInner_spec (srs gasIdx : Nat) (gas : GAS) (full : List GAS)
    (hg : full.getD gasIdx default = gas) :
    ∀ (ms : List Nat) (rc : Nat),
    (∀ m ∈ ms, gas.fillSBTRecords m = .ok (gas.calcNumSBTRecords m)) →
    setupInner srs gasIdx gas ms (rc * srs) =
      .ok ((genOffsetLoop full (ms.map (fun m => (gasIdx, m))) rc).1.map
            (fun ko => (ko.1, ko.2 * srs)),
           (genOffsetLoop full (ms.map (fun m => (gasIdx, m))) rc).2 * srs)
  | [], rc, _ => by simp [setupInner, genOffsetLoop]
  | m :: ms, rc, hfill => by
    unfold setupInner
    rw [hfill m (List.mem_cons_self m ms)]
    dsimp only
    have hrec := setupInner_spec srs gasIdx gas full hg ms (rc + gas.calcNumSBTRecords m)
      (fun x hx => hfill x (List.mem_cons_of_mem _ hx))
    rw [Nat.add_mul] at hrec
    rw [hrec]
    simp only [List.map_cons, genOffsetLoop, hg]

lemma setupOuter_spec (srs : Nat) (full : List GAS) :
    ∀ (pairs : List (Nat × GAS)) (rc : Nat),
    (∀ p ∈ pairs, full.getD p.1 default = p.2) →
    (∀ p ∈ pairs, ∀ m ∈ List.range p.2.getNumMaterialSets,
      p.2.fillSBTRecords m = .ok (p.2.calcNumSBTRecords m)) →
    setupOuter srs pairs (rc * srs) =
      .ok ((genOffsetLoop full (pairsKeys pairs) rc).1.map (fun ko => (ko.1, ko.2 * srs)),
           (genOffsetLoop full (pairsKeys pairs) rc).2 * srs)
  | [], rc, _, _ => by simp [setupOuter, pairsKeys, genOffsetLoop]
  | (gasIdx, gas) :: rest, rc, hsub, hfill => by
    unfold setupOuter
    have hg : full.getD gasIdx default = gas :=
      hsub (gasIdx, gas) (List.mem_cons_self _ _)
    rw [setupInner_spec srs gasIdx gas full hg (List.range gas.getNumMaterialSets) rc
      (hfill (gasIdx, gas) (List.mem_cons_self _ _))]
    dsimp only
    have hkeys : pairsKeys ((gasIdx, gas) :: rest) =
        (List.range gas.getNumMaterialSets).map (fun m => (gasIdx, m)) ++ pairsKeys rest := by
      simp [pairsKeys]
    rw [setupOuter_spec srs full rest
      ((genOffsetLoop full ((List.range gas.getNumMaterialSets).map (fun m => (gasIdx, m))) rc).2)
      (fun p hp => hsub p (List.mem_cons_of_mem _ hp))
      (fun p hp => hfill p (List.mem_cons_of_mem _ hp))]
    rw [hkeys, genOffsetLoop_append]
    simp [List.map_append]

lemma enum_getD (l : List GAS) : ∀ p ∈ l.enum, l.getD p.1 default = p.2 := by
  intro p hp
  rw [List.mem_enum_iff_getElem?] at hp
  rw [List.getD_eq_getD_get?, List.get?_eq_getElem?, hp]
  rfl

/-- C2: after a (re)computing `generateShaderBindingTableLayout` call,
`setupHitGroupSBT` visits the (GAS, material set) pairs in exactly the
order the layout pass recorded them, and writes each pair's block of
records starting at byte offset `sbtOffsets[(gas, matSet)] *
singleRecordSize`: the fill pass reproduces the offset map, scaled by the
stride, key for key and in order. -/
theorem C2_setupHitGroupSBT_order (s s1 : Scene) (mem sbtSize : Nat)
    (hwf : ∀ gas ∈ s.geomASs, ∀ c ∈ gas.children,
      c.geomInst.buildInputFlags.length = c.geomInst.materials.length)
    (hdirty : s.sbtLayoutIsUpToDate = false)
    (hgen : s.generateShaderBindingTableLayout = (s1, .ok mem))
    (hsz : s1.singleRecordSize * s1.numSBTRecords ≤ sbtSize) :
    s1.setupHitGroupSBT sbtSize =
      .ok (s1.sbtOffsets.map (fun ko => (ko.1, ko.2 * s1.singleRecordSize))) := by
  unfold Scene.generateShaderBindingTableLayout at hgen
  rw [hdirty] at hgen
  simp only [Bool.false_eq_true, if_false] at hgen
  rcases hsl : genStrideLoop s.geomASs OPTIX_SBT_RECORD_HEADER_SIZE with ⟨srs, sres⟩
  rw [hsl] at hgen
  cases sres with
  | error e => simp at hgen
  | ok u =>
    rcases hoff : genOffsetLoop s.geomASs (layoutKeys s.geomASs) 0 with ⟨offsets, total⟩
    rw [hoff] at hgen
    simp only [Prod.mk.injEq] at hgen
    obtain ⟨hs1, _⟩ := hgen
    have hfill : ∀ p ∈ s.geomASs.enum, ∀ m ∈ List.range p.2.getNumMaterialSets,
        p.2.fillSBTRecords m = .ok (p.2.calcNumSBTRecords m) := by
      intro p hp m hm
      obtain ⟨ms, hms, _⟩ := genStrideLoop_ok _ _ _ hsl
      have hpmem : p.2 ∈ s.geomASs := by
        rw [List.mem_enum_iff_getElem?] at hp
        exact List.getElem?_mem hp
      obtain ⟨mgas, hmgas⟩ : ∃ mgas, gasMaxOverMatSets p.2 = .ok mgas := by
        obtain ⟨i, hilen, hig⟩ := List.mem_iff_getElem.mp hpmem
        rcases List.forall₂_iff_get.mp hms with ⟨hlen, hget⟩
        refine ⟨ms.get ⟨i, by omega⟩, ?_⟩
        have hg2 := hget i hilen (by omega)
        rw [← hig]
        exact hg2
      have hcm : ∃ mm, p.2.calcMaxRecordSizeAlign m = .ok mm := by
        unfold gasMaxOverMatSets at hmgas
        exact foldlM_map_max_ok (fun i => p.2.calcMaxRecordSizeAlign i) _ _ _ hmgas m hm
      rw [List.mem_range] at hm
      exact gas_fill_eq_calcNum p.2 m hm hcm (hwf p.2 hpmem)
    subst hs1
    unfold Scene.setupHitGroupSBT
    rw [if_neg (by simpa using hsz)]
    have h0 : (0 : Nat) = 0 * srs := by omega
    rw [h0, setupOuter_spec srs s.geomASs s.geomASs.enum 0 (enum_getD s.geomASs) hfill]
    have : pairsKeys s.geomASs.enum = layoutKeys s.geomASs := rfl
    rw [this, hoff]

/-- C2 (witness): the worked-example scene after layout generation fills
its two blocks at byte offsets 0 and 96 = 3 * 32, matching the offset
map. -/
theorem C2_witness :
    sceneExampleGenerated.setupHitGroupSBT 288 =
      .ok (sceneExampleGenerated.sbtOffsets.map
        (fun ko => (ko.1, ko.2 * sceneExampleGenerated.singleRecordSize))) :=
  C2_setupHitGroupSBT_order sceneExample sceneExampleGenerated 288 288
    (by decide) (by decide) (by decide) (by decide)

lemma markDirty_phi (s1 : GAS) (flag : Bool) : GASPhi (s1.markDirty, flag) :=
  ⟨fun hf => absurd hf (by simp [GAS.markDirty, GAS.Inv]),
   fun hf => absurd hf (by simp [GAS.markDirty])⟩

lemma gasStep_phi (s : GAS) (flag : Bool) (op : GASOp) (h : GASPhi (s, flag)) :
    GASPhi (gasStep (s, flag) op) := by
  obtain ⟨hinv, hrtc⟩ := h
  cases op with
  | setConfiguration t au ac arva =>
    simp only [gasStep]
    unfold GAS.setConfiguration
    split
    · exact ⟨hinv, hrtc⟩
    · dsimp only
      split
      · exact markDirty_phi _ flag
      · rename_i hnc
        push_neg at hnc
        obtain ⟨h1, h2, h3, h4⟩ := hnc
        refine ⟨?_, hrtc⟩
        intro hflags
        show s.buildFlags = mkBuildFlags t au ac arva
        rw [← h1, ← h2, ← h3, ← h4]
        exact hinv hflags
  | setMotionOptions n =>
    simp only [gasStep, GAS.setMotionOptions]
    exact markDirty_phi _ flag
  | addChild gi pre =>
    simp only [gasStep]
    unfold GAS.addChild
    split
    · exact ⟨hinv, hrtc⟩
    · dsimp only
      split
      · exact ⟨hinv, hrtc⟩
      · exact markDirty_phi _ flag
  | removeChild gi pre =>
    simp only [gasStep]
    unfold GAS.removeChild
    dsimp only
    split
    · exact markDirty_phi _ flag
    · exact ⟨hinv, hrtc⟩
  | setNumMaterialSets n =>
    exact ⟨hinv, hrtc⟩
  | setNumRayTypes i n =>
    simp only [gasStep]
    unfold GAS.setNumRayTypes
    split
    · exact ⟨hinv, hrtc⟩
    · exact ⟨hinv, hrtc⟩
  | prepareForBuild mr =>
    simp only [gasStep]
    unfold GAS.prepareForBuild
    dsimp only
    split
    · exact ⟨hinv, hrtc⟩
    · exact ⟨fun _ => rfl, hrtc⟩
  | rebuild a b nh =>
    simp only [gasStep]
    unfold GAS.rebuild
    split
    · exact ⟨hinv, hrtc⟩
    · split
      · exact ⟨hinv, hrtc⟩
      · split
        · exact ⟨hinv, hrtc⟩
        · rename_i hrtb _ _
          have hrtb' : s.readyToBuild = true := by
            simpa using hrtb
          split
          · exact ⟨hinv, hrtc⟩
          · refine ⟨?_, ?_⟩
            · intro _
              exact hinv (by simp [hrtb'])
            · intro hf
              exact absurd hf (by simp [exOk])
  | prepareForCompact d =>
    simp only [gasStep]
    unfold GAS.prepareForCompact
    split
    · exact ⟨hinv, hrtc⟩
    · split
      · exact ⟨hinv, hrtc⟩
      · rename_i hbit hav
        have hav' : s.available = true := by simpa using hav
        split
        · exact ⟨hinv, by simp [exOk]⟩
        · refine ⟨?_, by simp [exOk]⟩
          intro _
          exact hinv (by simp [hav'])
  | compact b nh =>
    simp only [gasStep]
    unfold GAS.compact
    split
    · exact ⟨hinv, hrtc⟩
    · split
      · exact ⟨hinv, hrtc⟩
      · split
        · exact ⟨hinv, hrtc⟩
        · split
          · exact ⟨hinv, hrtc⟩
          · rename_i hbit hrtcb hav hsz
            have hav' : s.available = true := by simpa using hav
            have hrtcb' : s.readyToCompact = true := by simpa using hrtcb
            exact ⟨fun _ => hinv (by simp [hav']), fun _ => hrtc hrtcb'⟩
  | removeUncompacted =>
    simp only [gasStep]
    unfold GAS.removeUncompacted
    split
    · exact ⟨hinv, hrtc⟩
    · rename_i hcond
      push_neg at hcond
      obtain ⟨hca, _⟩ := hcond
      have hca' : s.compactedAvailable = true := by simpa using hca
      exact ⟨fun _ => hinv (by simp [hca']), hrtc⟩
  | update sb =>
    simp only [gasStep]
    unfold GAS.update
    split
    · exact ⟨hinv, hrtc⟩
    · split
      · exact ⟨hinv, hrtc⟩
      · split
        · exact ⟨hinv, hrtc⟩
        · split
          · exact ⟨hinv, hrtc⟩
          · exact ⟨hinv, hrtc⟩
  | markDirty =>
    simp only [gasStep]
    exact markDirty_phi _ flag

lemma gasRunFlag_phi : ∀ (ops : List GASOp) (p : GAS × Bool),
    GASPhi p → GASPhi (ops.foldl gasStep p)
  | [], _, h => h
  | op :: ops, p, h =>
    gasRunFlag_phi ops (gasStep p op) (gasStep_phi p.1 p.2 op h)

lemma gasInit_phi (fcp : Bool) : GASPhi (gasInit fcp, false) :=
  ⟨fun hf => absurd hf (by simp [gasInit, GAS.Inv]),
   fun hf => absurd hf (by simp [gasInit])⟩

lemma gasRun_phi (fcp : Bool) (ops : List GASOp) : GASPhi (gasRun fcp ops) :=
  gasRunFlag_phi ops _ (gasInit_phi fcp)

lemma gas_compact_needs_rtc (s : GAS) (hns : s.readyToCompact = false)
    (cb : BufferView) (nh : Nat) : exOk (s.compact cb nh).2 = false := by
  unfold GAS.compact
  split
  · rfl
  · split
    · rfl
    · rename_i hrtcb
      exact absurd (by simpa using hrtcb) (by simp [hns])

lemma gas_prepareForCompact_needs_config (s : GAS) (hinv : s.Inv)
    (hac : s.allowCompaction = false) (d : Nat) :
    exOk (s.prepareForCompact d).2 = false := by
  unfold GAS.prepareForCompact
  split
  · rfl
  · rename_i hbit
    have hbit' : s.buildFlags.allowCompaction = true := by simpa using hbit
    split
    · rfl
    · rename_i hav
      have hav' : s.available = true := by simpa using hav
      have hflags := hinv (by simp [hav'])
      rw [hflags] at hbit'
      simp [mkBuildFlags, hac] at hbit'

lemma gas_update_needs_config (s : GAS) (hinv : s.Inv)
    (hau : s.allowUpdate = false) (sb : BufferView) :
    exOk (s.update sb).2 = false := by
  unfold GAS.update
  split
  · rfl
  · rename_i hbit
    have hbit' : s.buildFlags.allowUpdate = true := by simpa using hbit
    split
    · rfl
    · rename_i hav
      have hor : s.available = true ∨ s.compactedAvailable = true := by
        simp only [not_not] at hav
        simpa using hav
      have hflags := hinv (by rcases hor with hh | hh <;> simp [hh])
      rw [hflags] at hbit'
      simp [mkBuildFlags, hau] at hbit'

lemma ias_markDirty_phi (s1 : IAS) (flag : Bool) : IASPhi (s1.markDirty, flag) :=
  ⟨fun hf => absurd hf (by simp [IAS.markDirty, IAS.Inv]),
   fun hf => absurd hf (by simp [IAS.markDirty])⟩

lemma iasStep_phi (s : IAS) (flag : Bool) (op : IASOp) (h : IASPhi (s, flag)) :
    IASPhi (iasStep (s, flag) op) := by
  obtain ⟨hinv, hrtc⟩ := h
  cases op with
  | setConfiguration t au ac =>
    simp only [iasStep]
    unfold IAS.setConfiguration
    dsimp only
    split
    · exact ias_markDirty_phi _ flag
    · rename_i hnc
      push_neg at hnc
      obtain ⟨h1, h2, h3⟩ := hnc
      refine ⟨?_, hrtc⟩
      intro hflags
      show s.buildFlags = mkBuildFlags t au ac false
      rw [← h1, ← h2, ← h3]
      exact hinv hflags
  | setMotionOptions n =>
    simp only [iasStep, IAS.setMotionOptions]
    exact ias_markDirty_phi _ flag
  | addChild i =>
    simp only [iasStep]
    unfold IAS.addChild
    split
    · exact ⟨hinv, hrtc⟩
    · exact ias_markDirty_phi _ flag
  | removeChild i =>
    simp only [iasStep]
    unfold IAS.removeChild
    split
    · exact ias_markDirty_phi _ flag
    · exact ⟨hinv, hrtc⟩
  | prepareForBuild ld fo mr =>
    simp only [iasStep]
    unfold IAS.prepareForBuild
    split
    · exact ⟨hinv, hrtc⟩
    · dsimp only
      split
      · exact ⟨hinv, hrtc⟩
      · exact ⟨fun _ => rfl, hrtc⟩
  | rebuild ib ab sb uo nh =>
    simp only [iasStep]
    unfold IAS.rebuild
    split
    · exact ⟨hinv, hrtc⟩
    · split
      · exact ⟨hinv, hrtc⟩
      · split
        · exact ⟨hinv, hrtc⟩
        · split
          · exact ⟨hinv, hrtc⟩
          · rename_i hrtb _ _ _
            have hrtb' : s.readyToBuild = true := by simpa using hrtb
            split
            · exact ⟨hinv, hrtc⟩
            · refine ⟨?_, ?_⟩
              · intro _
                exact hinv (by simp [hrtb'])
              · intro hf
                exact absurd hf (by simp)
  | prepareForCompact d =>
    simp only [iasStep]
    unfold IAS.prepareForCompact
    split
    · exact ⟨hinv, hrtc⟩
    · split
      · exact ⟨hinv, hrtc⟩
      · rename_i hbit hav
        have hav' : s.available = true := by simpa using hav
        split
        · exact ⟨hinv, by simp [exOk]⟩
        · refine ⟨?_, by simp [exOk]⟩
          intro _
          exact hinv (by simp [hav'])
  | compact b nh =>
    simp only [iasStep]
    unfold IAS.compact
    split
    · exact ⟨hinv, hrtc⟩
    · split
      · exact ⟨hinv, hrtc⟩
      · split
        · exact ⟨hinv, hrtc⟩
        · split
          · exact ⟨hinv, hrtc⟩
          · rename_i hbit hrtcb hav hsz
            have hav' : s.available = true := by simpa using hav
            have hrtcb' : s.readyToCompact = true := by simpa using hrtcb
            exact ⟨fun _ => hinv (by simp [hav']), fun _ => hrtc hrtcb'⟩
  | removeUncompacted =>
    simp only [iasStep]
    unfold IAS.removeUncompacted
    split
    · exact ⟨hinv, hrtc⟩
    · rename_i hcond
      push_neg at hcond
      obtain ⟨hca, _⟩ := hcond
      have hca' : s.compactedAvailable = true := by simpa using hca
      exact ⟨fun _ => hinv (by simp [hca']), hrtc⟩
  | update sb uo =>
    simp only [iasStep]
    unfold IAS.update
    split
    · exact ⟨hinv, hrtc⟩
    · split
      · exact ⟨hinv, hrtc⟩
      · split
        · exact ⟨hinv, hrtc⟩
        · split
          · exact ⟨hinv, hrtc⟩
          · exact ⟨hinv, hrtc⟩
  | markDirty =>
    simp only [iasStep]
    exact ias_markDirty_phi _ flag

lemma iasRunFlag_phi : ∀ (ops : List IASOp) (p : IAS × Bool),
    IASPhi p → IASPhi (ops.foldl iasStep p)
  | [], _, h => h
  | op :: ops, p, h =>
    iasRunFlag_phi ops (iasStep p op) (iasStep_phi p.1 p.2 op h)

lemma iasRun_phi (ops : List IASOp) : IASPhi (iasRun ops) :=
  iasRunFlag_phi ops _
    ⟨fun hf => absurd hf (by simp [iasInit, IAS.Inv]),
     fun hf => absurd hf (by simp [iasInit])⟩

lemma ias_compact_needs_rtc (s : IAS) (hns : s.readyToCompact = false)
    (cb : BufferView) (nh : Nat) : exOk (s.compact cb nh).2 = false := by
  unfold IAS.compact
  split
  · rfl
  · split
    · rfl
    · rename_i hrtcb
      exact absurd (by simpa using hrtcb) (by simp [hns])

lemma ias_prepareForCompact_needs_config (s : IAS) (hinv : s.Inv)
    (hac : s.allowCompaction = false) (d : Nat) :
    exOk (s.prepareForCompact d).2 = false := by
  unfold IAS.prepareForCompact
  split
  · rfl
  · rename_i hbit
    have hbit' : s.buildFlags.allowCompaction = true := by simpa using hbit
    split
    · rfl
    · rename_i hav
      have hav' : s.available = true := by simpa using hav
      have hflags := hinv (by simp [hav'])
      rw [hflags] at hbit'
      simp [mkBuildFlags, hac] at hbit'

lemma ias_update_needs_config (s : IAS) (hinv : s.Inv)
    (hau : s.allowUpdate = false) (sb : BufferView) (uo : Bool) :
    exOk (s.update sb uo).2 = false := by
  unfold IAS.update
  split
  · rfl
  · rename_i hbit
    have hbit' : s.buildFlags.allowUpdate = true := by simpa using hbit
    split
    · rfl
    · rename_i hav
      have hor : s.available = true ∨ s.compactedAvailable = true := by
        simp only [not_not] at hav
        simpa using hav
      have hflags := hinv (by rcases hor with hh | hh <;> simp [hh])
      rw [hflags] at hbit'
      simp [mkBuildFlags, hau] at hbit'

/-- C4: along any history of public operations of a GAS or an IAS (the run
carries a marker that records whether `prepareForCompact` has succeeded in
the current build cycle, i.e. since the last successful `rebuild`):
`compact` fails validation whenever `prepareForCompact` has not succeeded
in the current build cycle; `prepareForCompact` fails validation whenever
`allowCompaction` is not set in the current configuration; and `update`
fails validation whenever `allowUpdate` is not set in the current
configuration. -/
theorem C4_lifecycle_order_validation (fcp : Bool) (tg : List GASOp) (ti : List IASOp)
    (cb sb cbi sbi : BufferView) (nh ds nhi dsi : Nat) (uo : Bool) :
    ((gasRun fcp tg).2 = false → exOk ((gasRun fcp tg).1.compact cb nh).2 = false) ∧
    ((gasRun fcp tg).1.allowCompaction = false →
      exOk ((gasRun fcp tg).1.prepareForCompact ds).2 = false) ∧
    ((gasRun fcp tg).1.allowUpdate = false →
      exOk ((gasRun fcp tg).1.update sb).2 = false) ∧
    ((iasRun ti).2 = false → exOk ((iasRun ti).1.compact cbi nhi).2 = false) ∧
    ((iasRun ti).1.allowCompaction = false →
      exOk ((iasRun ti).1.prepareForCompact dsi).2 = false) ∧
    ((iasRun ti).1.allowUpdate = false →
      exOk ((iasRun ti).1.update sbi uo).2 = false) := by
  obtain ⟨hginv, hgrtc⟩ := gasRun_phi fcp tg
  obtain ⟨hiinv, hirtc⟩ := iasRun_phi ti
  refine ⟨?_, ?_, ?_, ?_, ?_, ?_⟩
  · intro hflag
    apply gas_compact_needs_rtc
    cases hr : (gasRun fcp tg).1.readyToCompact with
    | false => rfl
    | true => rw [hgrtc hr] at hflag; exact absurd hflag (by simp)
  · intro hac
    exact gas_prepareForCompact_needs_config _ hginv hac ds
  · intro hau
    exact gas_update_needs_config _ hginv hau sb
  · intro hflag
    apply ias_compact_needs_rtc
    cases hr : (iasRun ti).1.readyToCompact with
    | false => rfl
    | true => rw [hirtc hr] at hflag; exact absurd hflag (by simp)
  · intro hac
    exact ias_prepareForCompact_needs_config _ hiinv hac dsi
  · intro hau
    exact ias_update_needs_config _ hiinv hau sbi uo

/-- C4 (witness): the empty history — a freshly created GAS and IAS —
rejects compact, prepareForCompact and update. -/
theorem C4_witness :
    exOk ((gasRun false []).1.compact default 3).2 = false ∧
    exOk ((gasRun false []).1.prepareForCompact 0).2 = false ∧
    exOk ((gasRun false []).1.update default).2 = false ∧
    exOk ((iasRun []).1.compact default 3).2 = false ∧
    exOk ((iasRun []).1.prepareForCompact 0).2 = false ∧
    exOk ((iasRun []).1.update default true).2 = false := by
  have h := C4_lifecycle_order_validation false [] [] default default default default 3 0 3 0 true
  exact ⟨h.1 rfl, h.2.1 rfl, h.2.2.1 rfl, h.2.2.2.1 rfl, h.2.2.2.2.1 rfl, h.2.2.2.2.2 rfl⟩

/-- C5 (witness): the amended claim on the concrete built scene. -/
theorem C5_witness :
    exOk (sceneBuilt.gasSetNumRayTypes 0 0 2).2 = true ∧
    (sceneBuilt.gasSetNumRayTypes 0 0 2).1.sbtLayoutIsUpToDate = false ∧
    (∀ a ∈ (sceneBuilt.gasSetNumRayTypes 0 0 2).1.instASs,
      a.readyToBuild = false ∧ a.available = false ∧
      a.readyToCompact = false ∧ a.compactedAvailable = false) ∧
    ((sceneBuilt.gasSetNumRayTypes 0 0 2).1.geomASs.getD 0 default).available =
      (sceneBuilt.geomASs.getD 0 default).available ∧
    ((sceneBuilt.gasSetNumRayTypes 0 0 2).1.geomASs.getD 0 default).compactedAvailable =
      (sceneBuilt.geomASs.getD 0 default).compactedAvailable :=
  C5_setNumRayTypes_dirty_cascade_amended sceneBuilt 0 0 2 (by decide)

end OptixUtil
